import Mathlib

/-!
# gpuclockctl: a shallow embedding of `daemon/gpuclockctl.c`

The program is a short-lived command line helper.  It parses a vendor, a device
and a mode from `argv`, and then talks to one of two backends: the
`nvidia-settings` tool (through `run_external_process`) or two sysfs files of
the AMDGPU driver (through `fopen`/`fprintf`/`fclose`).

The embedding is a state-passing one.  A process state holds the `info` record of
`main`, the text written to the two standard streams, the `LOG_ERROR` messages,
the trace of backend calls and the file system.  Everything the program cannot
decide by itself (the effective user id, the environment, what the external tool
answers, whether a file operation succeeds) is read from an `Env`.
-/

namespace Gpuclockctl

/-! ## C library: `strtol` and `printf` conversions -/

/-- Largest value of a `long` on the LP64 targets the program is built for. -/
def LONG_MAX : Int := 9223372036854775807

/-- Smallest value of a `long`. -/
def LONG_MIN : Int := -9223372036854775808

/-- The white space `strtol` skips (the `isspace` class of the C locale). -/
def isspace (c : Char) : Bool :=
  c == ' ' || c == '\t' || c == '\n' || c == Char.ofNat 11 || c == Char.ofNat 12 || c == '\r'

/-- Value of a character read as a digit: `0-9`, then letters for ten and above. -/
def digitValue (c : Char) : Option Nat :=
  if '0' ≤ c ∧ c ≤ '9' then some (c.toNat - 48)
  else if 'a' ≤ c ∧ c ≤ 'z' then some (c.toNat - 97 + 10)
  else if 'A' ≤ c ∧ c ≤ 'Z' then some (c.toNat - 65 + 10)
  else none

/-- Whether `c` is a digit of the given base. -/
def isDigitOf (base : Nat) (c : Char) : Bool :=
  match digitValue c with
  | some d => decide (d < base)
  | none => false

/-- Reads the longest run of digits of `base` at the head of the input.  Returns the
accumulated magnitude and the number of characters read. -/
def scanDigits (base : Nat) : List Char → Nat → Nat → Nat × Nat
  | [], acc, k => (acc, k)
  | c :: cs, acc, k =>
    match digitValue c with
    | some d => if d < base then scanDigits base cs (acc * base + d) (k + 1) else (acc, k)
    | none => (acc, k)

/-- Splits an optional sign off the input: (negative, characters skipped, rest). -/
def scanSign : List Char → Bool × Nat × List Char
  | '-' :: r => (true, 1, r)
  | '+' :: r => (false, 1, r)
  | r => (false, 0, r)

/-- Chooses the radix as `strtol` does: (radix, characters skipped, rest).  With base
0 or 16 a `0x`/`0X` in front of a hexadecimal digit is skipped; with base 0 a leading
`0` selects octal and anything else decimal. -/
def scanRadix (base : Nat) (r : List Char) : Nat × Nat × List Char :=
  match r with
  | '0' :: x :: h :: t =>
    if (base = 0 ∨ base = 16) ∧ (x = 'x' ∨ x = 'X') ∧ isDigitOf 16 h then (16, 2, h :: t)
    else if base = 0 then (8, 0, r)
    else (base, 0, r)
  | '0' :: _ => if base = 0 then (8, 0, r) else (base, 0, r)
  | _ => if base = 0 then (10, 0, r) else (base, 0, r)

/-- Saturation of an out-of-range result, as `strtol` reports it. -/
def clampLong (v : Int) : Int :=
  if v > LONG_MAX then LONG_MAX else if v < LONG_MIN then LONG_MIN else v

/-- The C function `strtol(val, &end, base)` as ISO C11 defines it: optional white
space, an optional sign, then the longest run of digits of the radix, with saturation
at the bounds of `long`.  The result is the converted value and `end - val`, the number
of characters consumed; the latter is 0 exactly when no conversion was done
(`end == val`), and the value is then 0. -/
def strtol (val : String) (base : Nat) : Int × Nat :=
  let cs := val.data
  let ws := (cs.takeWhile isspace).length
  let (neg, sl, r1) := scanSign (cs.dropWhile isspace)
  let (radix, pl, r2) := scanRadix base r1
  let (mag, k) := scanDigits radix r2 0 0
  if k = 0 then (0, 0)
  else (clampLong (if neg then -(mag : Int) else (mag : Int)), ws + sl + pl + k)

/-- The conversion `%ld`. -/
def fmt_ld (v : Int) : String := toString v

/-- The conversion `%04x` of an `unsigned int`: lower-case hexadecimal, padded with
zeros on the left to four characters. -/
def fmt_04x (u : Nat) : String :=
  let ds := Nat.toDigits 16 u
  String.mk (List.replicate (4 - ds.length) '0' ++ ds)

/-- The cast `(unsigned short)v`, promoted to `unsigned int` for `%x`. -/
def toUShort (v : Int) : Nat := (v % 65536).toNat

/-- The cast `(short)v`, promoted to `int` and read by `%x` as an `unsigned int`:
a negative `short` is sign-extended to 32 bits. -/
def shortAsUInt (v : Int) : Nat :=
  let u := (v % 65536).toNat
  if u < 32768 then u else u + 4294901760

/-- What `snprintf(buf, size, ...)` leaves in `buf` when the full text would be `s`:
at most `size - 1` characters (the texts formatted here are ASCII, one byte each). -/
def snprintf (size : Nat) (s : String) : String := String.mk (s.data.take (size - 1))

/-- The test `strncmp(a, b, 3) == 0` for a three-character literal `b`. -/
def strncmp3 (a b : String) : Bool := a.data.take 3 == b.data

/-! ## The process: state, environment and the monad of effects -/

/-- The record `struct GameModeGPUInfo` of `gpu-control.h`; every field is a `long`. -/
structure GameModeGPUInfo where
  vendor : Int
  device : Int
  core : Int
  mem : Int
  nv_perf_level : Int
deriving DecidableEq, Repr

/-- The header `gpu-control.h` is not among the sources at hand.  Its two vendor
constants that `gpuclockctl.c` names and its validity test `GPUVendorValid` are kept
as parameters of the embedding. -/
structure GpuControl where
  Vendor_NVIDIA : Int
  Vendor_AMD : Int
  GPUVendorValid : Int → Bool

/-- A call that leaves the process: the external tool (with its argument vector, and
whether an output buffer was passed) or one of the `stdio` calls on a control file. -/
inductive Event where
  | exec (args : List String) (capture : Bool)
  | fopen (path : String)
  | fprintf (path : String) (text : String)
  | fclose (path : String)
deriving DecidableEq, Repr

/-- What the program reads from outside.  An answer may depend on the calls made so
far, which the oracles receive as their first argument. -/
structure Env where
  /-- Value of `geteuid()`. -/
  geteuid : Nat
  /-- Value of `getenv(name)`. -/
  getenv : String → Option String
  /-- Status and captured output of `run_external_process(args, buf, -1)`. -/
  run_external_process : List Event → List String → Int × String
  /-- Whether `fopen(path, "w")` returns a stream. -/
  fopen : List Event → String → Bool
  /-- Whether `fprintf(file, ...)` returns a non-negative count. -/
  fprintf : List Event → String → String → Bool
  /-- Whether `fclose(file)` returns 0. -/
  fclose : List Event → String → Bool
  /-- Text of `strerror(errno)` after a failed call. -/
  strerror : List Event → String

/-- State of the process. -/
structure State where
  /-- The local `info` of `main`. -/
  info : GameModeGPUInfo
  /-- Text written to standard output. -/
  stdout : String
  /-- Text written to standard error with `fprintf(stderr, ...)`. -/
  stderr : String
  /-- Messages passed to `LOG_ERROR`, oldest first. -/
  log : List String
  /-- Backend calls made so far, oldest first. -/
  trace : List Event
  /-- Content of the files, by path. -/
  fs : String → Option String

/-- Result of running a piece of the program: it returns a value, or the process has
left through `exit`. -/
inductive Res (α : Type) where
  | ret (a : α) (s : State)
  | exit (status : Int) (s : State)

/-- A piece of the program. -/
def Proc (α : Type) : Type := State → Res α

/-- Sequencing: nothing runs after `exit`. -/
def Proc.bind {α β : Type} (m : Proc α) (f : α → Proc β) : Proc β := fun s =>
  match m s with
  | Res.ret a s1 => f a s1
  | Res.exit c s1 => Res.exit c s1

instance : Monad Proc where
  pure a := fun s => Res.ret a s
  bind := Proc.bind

def EXIT_SUCCESS : Int := 0

def EXIT_FAILURE : Int := 1

/-- The C function `exit(status)`. -/
def exit {α : Type} (status : Int) : Proc α := fun s => Res.exit status s

/-- The call `printf(...)` with the formatted text `t`. -/
def printf (t : String) : Proc Unit := fun s => Res.ret () { s with stdout := s.stdout ++ t }

/-- The call `fprintf(stderr, ...)` with the formatted text `t`. -/
def fprintf_stderr (t : String) : Proc Unit := fun s =>
  Res.ret () { s with stderr := s.stderr ++ t }

/-- The logging hook `LOG_ERROR` of `logging.h`: a message sink with no effect on
control flow. -/
def LOG_ERROR (t : String) : Proc Unit := fun s => Res.ret () { s with log := s.log ++ [t] }

/-- Reads the local `info`. -/
def getInfo : Proc GameModeGPUInfo := fun s => Res.ret s.info s

/-- Assigns to the local `info`. -/
def setInfo (f : GameModeGPUInfo → GameModeGPUInfo) : Proc Unit := fun s =>
  Res.ret () { s with info := f s.info }

/-- The call `run_external_process(args, buf, -1)`; `capture` tells whether `buf` is
a buffer or `NULL`.  Returns the status and the text left in `buf`. -/
def run_external_process (env : Env) (args : List String) (capture : Bool) :
    Proc (Int × String) := fun s =>
  Res.ret (env.run_external_process s.trace args)
    { s with trace := s.trace ++ [Event.exec args capture] }

/-- The call `fopen(path, "w")`: on success the file exists and is empty. -/
def fopen (env : Env) (path : String) : Proc Bool := fun s =>
  let ok := env.fopen s.trace path
  Res.ret ok { s with
    trace := s.trace ++ [Event.fopen path],
    fs := if ok then fun p => if p = path then some "" else s.fs p else s.fs }

/-- The call `fprintf(file, ...)` with the formatted text `t` on the stream opened
on `path`: on success the text is appended to the file. -/
def fprintf (env : Env) (path t : String) : Proc Bool := fun s =>
  let ok := env.fprintf s.trace path t
  Res.ret ok { s with
    trace := s.trace ++ [Event.fprintf path t],
    fs := if ok then fun p => if p = path then some ((s.fs p).getD "" ++ t) else s.fs p
          else s.fs }

/-- The call `fclose(file)` on the stream opened on `path`. -/
def fclose (env : Env) (path : String) : Proc Bool := fun s =>
  Res.ret (env.fclose s.trace path) { s with trace := s.trace ++ [Event.fclose path] }

/-- The text `strerror(errno)`. -/
def strerror (env : Env) : Proc String := fun s => Res.ret (env.strerror s.trace) s

/-! ## The program -/

def NV_CORE_OFFSET_ATTRIBUTE : String := "GPUGraphicsClockOffset"

def NV_MEM_OFFSET_ATTRIBUTE : String := "GPUMemoryTransferRateOffset"

/-- The text of the format `NV_ATTRIBUTE_FORMAT`, `"[gpu:%ld]/%s[%ld]"`. -/
def NV_ATTRIBUTE_FORMAT (device : Int) (attr : String) (perf : Int) : String :=
  "[gpu:" ++ fmt_ld device ++ "]/" ++ attr ++ "[" ++ fmt_ld perf ++ "]"

/-- The text of the format `AMD_DRM_PATH`, `"/sys/class/drm/card%ld/device/%s"`. -/
def AMD_DRM_PATH (device : Int) (filename : String) : String :=
  "/sys/class/drm/card" ++ fmt_ld device ++ "/device/" ++ filename

def usage_text : String :=
  "usage: gpuclockctl PCI_ID DEVICE [get] [set CORE MEM [PERF_LEVEL]]]"

/-- Helper to quit with usage. -/
def print_usage_and_exit {α : Type} : Proc α := do
  fprintf_stderr (usage_text ++ "\n")
  exit EXIT_FAILURE

/-- Reads the two clock offsets of an Nvidia card through `nvidia-settings -q`. -/
def get_gpu_state_nv (g : GpuControl) (env : Env) : Proc Int := do
  let info ← getInfo
  if info.vendor ≠ g.Vendor_NVIDIA then
    pure (-1)
  else do
    if (env.getenv "DISPLAY").isNone then
      LOG_ERROR "Getting Nvidia parameters requires DISPLAY to be set - will likely fail!\n"
    let arg := snprintf 128
      (NV_ATTRIBUTE_FORMAT info.device NV_CORE_OFFSET_ATTRIBUTE info.nv_perf_level)
    let r ← run_external_process env ["/usr/bin/nvidia-settings", "-q", arg, "-t"] true
    if r.1 ≠ 0 then do
      LOG_ERROR ("Failed to set " ++ arg ++ "!\n")
      pure (-1)
    else do
      let buf := r.2
      setInfo fun i => { i with core := (strtol buf 10).1 }
      if (strtol buf 10).2 = 0 then do
        LOG_ERROR ("Failed to parse output for \"" ++ arg ++ "\" output was \"" ++ buf ++ "\"!\n")
        pure (-1)
      else do
        let arg := snprintf 128
          (NV_ATTRIBUTE_FORMAT info.device NV_MEM_OFFSET_ATTRIBUTE info.nv_perf_level)
        let r ← run_external_process env ["/usr/bin/nvidia-settings", "-q", arg, "-t"] true
        if r.1 ≠ 0 then do
          LOG_ERROR ("Failed to set " ++ arg ++ "!\n")
          pure (-1)
        else do
          let buf := r.2
          setInfo fun i => { i with mem := (strtol buf 10).1 }
          if (strtol buf 10).2 = 0 then do
            LOG_ERROR
              ("Failed to parse output for \"" ++ arg ++ "\" output was \"" ++ buf ++ "\"!\n")
            pure (-1)
          else
            pure 0

/-- The stub for AMD.  It returns `info != NULL`, and `main` passes the address of its
local, so the result is 1. -/
def get_gpu_state_amd : Proc Int := do
  fprintf_stderr "Fetching GPU state on AMD is currently unimplemented!\n"
  pure 1

/-- Sets the two clock offsets of an Nvidia card through `nvidia-settings -a`. -/
def set_gpu_state_nv (g : GpuControl) (env : Env) : Proc Int := do
  let info ← getInfo
  if info.vendor ≠ g.Vendor_NVIDIA then
    pure (-1)
  else do
    if (env.getenv "DISPLAY").isNone || (env.getenv "XAUTHORITY").isNone then
      LOG_ERROR ("Setting Nvidia parameters requires DISPLAY and XAUTHORITY to be set - " ++
        "will likely fail!\n")
    let core_arg := snprintf 128
      (NV_ATTRIBUTE_FORMAT info.device NV_CORE_OFFSET_ATTRIBUTE info.nv_perf_level ++ "=" ++
        fmt_ld info.core)
    let r ← run_external_process env ["/usr/bin/nvidia-settings", "-a", core_arg] false
    if r.1 ≠ 0 then do
      LOG_ERROR ("Failed to set " ++ core_arg ++ "!\n")
      pure (-1)
    else do
      let mem_arg := snprintf 128
        (NV_ATTRIBUTE_FORMAT info.device NV_MEM_OFFSET_ATTRIBUTE info.nv_perf_level ++ "=" ++
          fmt_ld info.mem)
      let r ← run_external_process env ["/usr/bin/nvidia-settings", "-a", mem_arg] false
      if r.1 ≠ 0 then do
        LOG_ERROR ("Failed to set " ++ mem_arg ++ "!\n")
        pure (-1)
      else
        pure 0

/-- Sets the value in a file in the AMDGPU driver config. -/
def set_gpu_state_amd_file (env : Env) (filename : String) (device value : Int) : Proc Int := do
  let path := snprintf 64 (AMD_DRM_PATH device filename)
  let file ← fopen env path
  if !file then do
    let e ← strerror env
    LOG_ERROR ("Could not open " ++ path ++ " for write (" ++ e ++ ")!\n")
    pure (-1)
  else do
    let w ← fprintf env path (fmt_ld value)
    if !w then do
      let e ← strerror env
      LOG_ERROR ("Could not write to " ++ path ++ " (" ++ e ++ ")!\n")
      pure (-1)
    else do
      let c ← fclose env path
      if !c then do
        let e ← strerror env
        LOG_ERROR ("Could not close " ++ path ++ " after writing (" ++ e ++ ")!\n")
        pure (-1)
      else
        pure 0

/-- Sets the gpu state based on input parameters on amd. -/
def set_gpu_state_amd (g : GpuControl) (env : Env) : Proc Int := do
  let info ← getInfo
  if info.vendor ≠ g.Vendor_AMD then
    pure (-1)
  else do
    if env.geteuid ≠ 0 then do
      fprintf_stderr "gpuclockctl must be run as root to set AMD values\n"
      print_usage_and_exit
    let r ← set_gpu_state_amd_file env "pp_sclk_od" info.device info.core
    if r ≠ 0 then
      pure (-1)
    else do
      let r ← set_gpu_state_amd_file env "pp_mclk_od" info.device info.mem
      if r ≠ 0 then
        pure (-1)
      else
        pure 0

/-- Helper to get and verify vendor value. -/
def get_vendor (g : GpuControl) (val : String) : Proc Int := do
  let ret := (strtol val 0).1
  if !g.GPUVendorValid ret || (strtol val 0).2 = 0 then do
    LOG_ERROR ("Invalid GPU Vendor passed (0x" ++ fmt_04x (toUShort ret) ++ ")!\n")
    print_usage_and_exit
  pure ret

/-- Helper to get and verify device value. -/
def get_device (val : String) : Proc Int := do
  let ret := (strtol val 10).1
  if ret < 0 || (strtol val 10).2 = 0 then do
    LOG_ERROR ("Invalid GPU device passed (" ++ fmt_ld ret ++ ")!\n")
    print_usage_and_exit
  pure ret

/-- Helper to get and verify core and mem value. -/
def get_generic_value (val : String) : Proc Int := do
  let ret := (strtol val 10).1
  if ret < 0 || (strtol val 10).2 = 0 then do
    LOG_ERROR ("Invalid value passed (" ++ fmt_ld ret ++ ")!\n")
    print_usage_and_exit
  pure ret

/-- The string `argv[i]`; `main` reads it only below `argc`. -/
def arg (argv : List String) (i : Nat) : String := argv.getD i ""

/-- The record after `memset(&info, 0, sizeof(info))`. -/
def zeroInfo : GameModeGPUInfo := ⟨0, 0, 0, 0, 0⟩

/-- Main entry point, dispatch to the appropriate helper.  The tests on `info.vendor`
are made on `v`, the value just stored in that field. -/
def main (g : GpuControl) (env : Env) (argv : List String) : Proc Int :=
  let argc := argv.length
  if argc ≥ 4 ∧ strncmp3 (arg argv 3) "get" then do
    setInfo fun _ => zeroInfo
    let v ← get_vendor g (arg argv 1)
    setInfo fun i => { i with vendor := v }
    let d ← get_device (arg argv 2)
    setInfo fun i => { i with device := d }
    if v = g.Vendor_NVIDIA ∧ argc > 4 then do
      let p ← get_generic_value (arg argv 4)
      setInfo fun i => { i with nv_perf_level := p }
    if v = g.Vendor_NVIDIA then do
      let r ← get_gpu_state_nv g env
      if r ≠ 0 then exit EXIT_FAILURE
    else if v = g.Vendor_AMD then do
      let r ← get_gpu_state_amd
      if r ≠ 0 then exit EXIT_FAILURE
    else
      printf ("Currently unsupported GPU vendor 0x" ++ fmt_04x (shortAsUInt v) ++
        ", doing nothing!\n")
    let info ← getInfo
    printf (fmt_ld info.core ++ " " ++ fmt_ld info.mem ++ "\n")
    pure EXIT_SUCCESS
  else if argc ≥ 6 ∧ argc ≤ 7 ∧ strncmp3 (arg argv 3) "set" then do
    setInfo fun _ => zeroInfo
    let v ← get_vendor g (arg argv 1)
    setInfo fun i => { i with vendor := v }
    let d ← get_device (arg argv 2)
    setInfo fun i => { i with device := d }
    let c ← get_generic_value (arg argv 4)
    setInfo fun i => { i with core := c }
    let m ← get_generic_value (arg argv 5)
    setInfo fun i => { i with mem := m }
    if v = g.Vendor_NVIDIA ∧ argc > 6 then do
      let p ← get_generic_value (arg argv 6)
      setInfo fun i => { i with nv_perf_level := p }
    let info ← getInfo
    printf ("gpuclockctl setting core:" ++ fmt_ld info.core ++ " mem:" ++ fmt_ld info.mem ++
      " on device:" ++ fmt_ld info.device ++ " with vendor 0x" ++
      fmt_04x (toUShort info.vendor) ++ "\n")
    if v = g.Vendor_NVIDIA then
      printf ("on Performance Level " ++ fmt_ld info.nv_perf_level ++ "\n")
    if v = g.Vendor_NVIDIA then
      set_gpu_state_nv g env
    else if v = g.Vendor_AMD then
      set_gpu_state_amd g env
    else do
      printf ("Currently unsupported GPU vendor 0x" ++ fmt_04x (shortAsUInt v) ++
        ", doing nothing!\n")
      pure EXIT_SUCCESS
  else
    print_usage_and_exit

/-- The process state at the start of `main`: nothing written, no call made; the
storage of `info` is indeterminate until the `memset`, and is taken as zero. -/
def initState (fs : String → Option String) : State :=
  { info := zeroInfo, stdout := "", stderr := "", log := [], trace := [], fs := fs }

/-- A finished run: its final state and its exit status, as the value passed to `exit`
or returned by `main` (0 for success; the failures are 1 from `exit(EXIT_FAILURE)` and
-1 from a backend, which the parent process sees as 255). -/
structure Outcome where
  status : Int
  final : State

/-- Runs the program on `argv` from the file system `fs`.  The exit status is the
argument of `exit`, or the value `main` returns. -/
def run (g : GpuControl) (env : Env) (fs : String → Option String) (argv : List String) :
    Outcome :=
  match main g env argv (initState fs) with
  | Res.ret r s => ⟨r, s⟩
  | Res.exit c s => ⟨c, s⟩

/-- Modelled from the spec: the values of `gpu-control.h` for concrete runs.  The
spec gives `0x10de` as the Nvidia identifier and `0x9999` as an unrecognised one; the
AMD identifier and a third recognised vendor with no backend are the PCI vendor ids
`0x1002` and `0x8086`. -/
def pciIds : GpuControl :=
  { Vendor_NVIDIA := 0x10de
    Vendor_AMD := 0x1002
    GPUVendorValid := fun v => v == 0x10de || v == 0x1002 || v == 0x8086 }

/-- An environment for concrete runs: user id `uid`, `DISPLAY` and `XAUTHORITY` set,
the tool answers `tool` to every call, every file operation succeeds. -/
def simpleEnv (uid : Nat) (tool : List String → Int × String) : Env :=
  { geteuid := uid
    getenv := fun _ => some ":0"
    run_external_process := fun _ a => tool a
    fopen := fun _ _ => true
    fprintf := fun _ _ _ => true
    fclose := fun _ _ => true
    strerror := fun _ => "" }

/-- An environment like `simpleEnv` for the superuser in which no file can be opened. -/
def noOpenEnv : Env :=
  { simpleEnv 0 (fun _ => (0, "")) with fopen := fun _ _ => false }

/-- An environment like `simpleEnv` for the superuser in which every write to a file
fails. -/
def noWriteEnv : Env :=
  { simpleEnv 0 (fun _ => (0, "")) with fprintf := fun _ _ _ => false }

/-- A file system with no file. -/
def emptyFs : String → Option String := fun _ => none

/-! ## Reading the claims: the shapes of a command line -/

/-- The guard of the first branch of `main`: a Get request. -/
def IsGet (argv : List String) : Prop :=
  argv.length ≥ 4 ∧ strncmp3 (arg argv 3) "get" = true

/-- The guard of the second branch of `main`: a Set request. -/
def IsSet (argv : List String) : Prop :=
  argv.length ≥ 6 ∧ argv.length ≤ 7 ∧ strncmp3 (arg argv 3) "set" = true

instance (argv : List String) : Decidable (IsGet argv) := by unfold IsGet; infer_instance

instance (argv : List String) : Decidable (IsSet argv) := by unfold IsSet; infer_instance

/-- The token `tok` is accepted by `get_device` and `get_generic_value` with value `v`:
`strtol` in base 10 consumes something and the value is not negative. -/
def Accepts (tok : String) (v : Int) : Prop :=
  (strtol tok 10).1 = v ∧ 0 ≤ v ∧ (strtol tok 10).2 ≠ 0

/-- The token `tok` is rejected by `get_device` and `get_generic_value`: the value is
negative, or `strtol` consumes nothing. -/
def Rejected (tok : String) : Prop :=
  (strtol tok 10).1 < 0 ∨ (strtol tok 10).2 = 0

/-- The token `tok` is accepted by `get_vendor` with value `v`. -/
def VendorIs (g : GpuControl) (tok : String) (v : Int) : Prop :=
  (strtol tok 0).1 = v ∧ g.GPUVendorValid v = true ∧ (strtol tok 0).2 ≠ 0

/-- The performance level of a request whose optional token sits at index `i`: the
token's value when `argv` has one, else the 0 of the `memset`. -/
def PerfIs (argv : List String) (i : Nat) (p : Int) : Prop :=
  if argv.length > i then Accepts (arg argv i) p else p = 0

instance (tok : String) (v : Int) : Decidable (Accepts tok v) := by
  unfold Accepts; infer_instance

instance (tok : String) : Decidable (Rejected tok) := by unfold Rejected; infer_instance

instance (g : GpuControl) (tok : String) (v : Int) : Decidable (VendorIs g tok v) := by
  unfold VendorIs; infer_instance

instance (argv : List String) (i : Nat) (p : Int) : Decidable (PerfIs argv i p) := by
  unfold PerfIs; infer_instance

/-- The argument vector of the query of the core offset of device `d` at performance
level `p`, with the attribute address written as the claims word it. -/
def coreQuery (d p : Int) : List String :=
  ["/usr/bin/nvidia-settings", "-q",
    "[gpu:" ++ fmt_ld d ++ "]/GPUGraphicsClockOffset[" ++ fmt_ld p ++ "]", "-t"]

/-- The argument vector of the query of the memory offset. -/
def memQuery (d p : Int) : List String :=
  ["/usr/bin/nvidia-settings", "-q",
    "[gpu:" ++ fmt_ld d ++ "]/GPUMemoryTransferRateOffset[" ++ fmt_ld p ++ "]", "-t"]

/-- The argument vector that assigns `c` to the core offset, in apply mode. -/
def coreAssign (d p c : Int) : List String :=
  ["/usr/bin/nvidia-settings", "-a",
    "[gpu:" ++ fmt_ld d ++ "]/GPUGraphicsClockOffset[" ++ fmt_ld p ++ "]=" ++ fmt_ld c]

/-- The argument vector that assigns `m` to the memory offset, in apply mode. -/
def memAssign (d p m : Int) : List String :=
  ["/usr/bin/nvidia-settings", "-a",
    "[gpu:" ++ fmt_ld d ++ "]/GPUMemoryTransferRateOffset[" ++ fmt_ld p ++ "]=" ++ fmt_ld m]

/-- The core-control file of device `d`. -/
def corePath (d : Int) : String := "/sys/class/drm/card" ++ fmt_ld d ++ "/device/pp_sclk_od"

/-- The mem-control file of device `d`. -/
def memPath (d : Int) : String := "/sys/class/drm/card" ++ fmt_ld d ++ "/device/pp_mclk_od"

/-- The three calls of a complete write of `text` to the file `path`. -/
def writeEvents (path text : String) : List Event :=
  [Event.fopen path, Event.fprintf path text, Event.fclose path]

/-- Whether the environment lets a write of `text` to `path` that starts after the
calls `tr` go through: the open, the write and the close all succeed. -/
def writeOk (env : Env) (tr : List Event) (path text : String) : Bool :=
  env.fopen tr path &&
    env.fprintf (tr ++ [Event.fopen path]) path text &&
    env.fclose (tr ++ [Event.fopen path, Event.fprintf path text]) path

/-- The performance level `main` stores for a request of vendor `v` whose optional
token sits at index `i`: the token is read for the Nvidia vendor only. -/
def StoredPerf (g : GpuControl) (v : Int) (argv : List String) (i : Nat) (p : Int) : Prop :=
  if v = g.Vendor_NVIDIA then PerfIs argv i p else p = 0

/-- The part of the Get branch of `main` that follows the parsing of the tokens. -/
def getDispatch (g : GpuControl) (env : Env) (v : Int) : Proc Int := do
  if v = g.Vendor_NVIDIA then do
    let r ← get_gpu_state_nv g env
    if r ≠ 0 then exit EXIT_FAILURE
  else if v = g.Vendor_AMD then do
    let r ← get_gpu_state_amd
    if r ≠ 0 then exit EXIT_FAILURE
  else
    printf ("Currently unsupported GPU vendor 0x" ++ fmt_04x (shortAsUInt v) ++
      ", doing nothing!\n")
  let info ← getInfo
  printf (fmt_ld info.core ++ " " ++ fmt_ld info.mem ++ "\n")
  pure EXIT_SUCCESS

/-- The part of the Set branch of `main` that follows the parsing of the tokens. -/
def setDispatch (g : GpuControl) (env : Env) (v : Int) : Proc Int := do
  let info ← getInfo
  printf ("gpuclockctl setting core:" ++ fmt_ld info.core ++ " mem:" ++ fmt_ld info.mem ++
    " on device:" ++ fmt_ld info.device ++ " with vendor 0x" ++
    fmt_04x (toUShort info.vendor) ++ "\n")
  if v = g.Vendor_NVIDIA then
    printf ("on Performance Level " ++ fmt_ld info.nv_perf_level ++ "\n")
  if v = g.Vendor_NVIDIA then
    set_gpu_state_nv g env
  else if v = g.Vendor_AMD then
    set_gpu_state_amd g env
  else do
    printf ("Currently unsupported GPU vendor 0x" ++ fmt_04x (shortAsUInt v) ++
      ", doing nothing!\n")
    pure EXIT_SUCCESS

/-- The piece `m` keeps the property `J` of the record `info`: started in a state where
`J` holds, it ends, by return or by `exit`, in a state where `J` holds. -/
def Keeps {α : Type} (J : GameModeGPUInfo → Prop) (m : Proc α) : Prop :=
  ∀ s, J s.info →
    match m s with
    | Res.ret _ s1 => J s1.info
    | Res.exit _ s1 => J s1.info

/-- What holds of `info` throughout a Get: the device and the performance level are
not negative. -/
def GetInv (i : GameModeGPUInfo) : Prop := 0 ≤ i.device ∧ 0 ≤ i.nv_perf_level

/-- What holds of `info` throughout a Set and on the usage path: no field but the
vendor is negative. -/
def SetInv (i : GameModeGPUInfo) : Prop :=
  0 ≤ i.device ∧ 0 ≤ i.nv_perf_level ∧ 0 ≤ i.core ∧ 0 ≤ i.mem

/-! ## Basic facts -/

@[simp] theorem bind_apply {α β : Type} (m : Proc α) (f : α → Proc β) (s : State) :
    (m >>= f) s = Proc.bind m f s := rfl

@[simp] theorem pure_apply {α : Type} (a : α) (s : State) :
    (pure a : Proc α) s = Res.ret a s := rfl

theorem clampLong_range (v : Int) : LONG_MIN ≤ clampLong v ∧ clampLong v ≤ LONG_MAX := by
  unfold clampLong LONG_MIN LONG_MAX
  split_ifs <;> omega

/-- The value `strtol` returns is a `long`. -/
theorem strtol_range (val : String) (base : Nat) :
    LONG_MIN ≤ (strtol val base).1 ∧ (strtol val base).1 ≤ LONG_MAX := by
  unfold strtol
  simp only []
  split_ifs
  · simp [LONG_MIN, LONG_MAX]
  · exact clampLong_range _
  · exact clampLong_range _

/-- A non-negative `long` prints with at most 19 characters. -/
theorem fmt_ld_length (v : Int) (h0 : 0 ≤ v) (h1 : v ≤ LONG_MAX) : (fmt_ld v).length ≤ 19 := by
  obtain ⟨n, rfl⟩ := Int.eq_ofNat_of_zero_le h0
  have hn : n < 10 ^ 19 := by
    unfold LONG_MAX at h1
    omega
  exact Nat.repr_length n 19 (by decide) hn

theorem snprintf_eq (size : Nat) (s : String) (h : s.length ≤ size - 1) :
    snprintf size s = s := by
  unfold snprintf
  rw [List.take_of_length_le h]

theorem accepts_le {tok : String} {v : Int} (h : Accepts tok v) : v ≤ LONG_MAX := by
  rw [← h.1]
  exact (strtol_range tok 10).2

theorem get_vendor_ok {g : GpuControl} {tok : String} {v : Int} (h : VendorIs g tok v)
    (s : State) : get_vendor g tok s = Res.ret v s := by
  obtain ⟨h1, h2, h3⟩ := h
  simp [get_vendor, Proc.bind, h1, h2, h3]

theorem get_device_ok {tok : String} {v : Int} (h : Accepts tok v) (s : State) :
    get_device tok s = Res.ret v s := by
  obtain ⟨h1, h2, h3⟩ := h
  simp [get_device, Proc.bind, h1, not_lt.mpr h2, h3]

theorem get_generic_value_ok {tok : String} {v : Int} (h : Accepts tok v) (s : State) :
    get_generic_value tok s = Res.ret v s := by
  obtain ⟨h1, h2, h3⟩ := h
  simp [get_generic_value, Proc.bind, h1, not_lt.mpr h2, h3]

theorem get_device_bad {tok : String} (h : Rejected tok) (s : State) :
    get_device tok s = Res.exit 1
      { s with
        log := s.log ++ ["Invalid GPU device passed (" ++ fmt_ld (strtol tok 10).1 ++ ")!\n"],
        stderr := s.stderr ++ (usage_text ++ "\n") } := by
  have hb : (decide ((strtol tok 10).1 < 0) || decide ((strtol tok 10).2 = 0)) = true := by
    rcases h with h | h <;> simp [h]
  simp [get_device, Proc.bind, hb, print_usage_and_exit, LOG_ERROR, fprintf_stderr, exit,
    EXIT_FAILURE]

theorem get_generic_value_bad {tok : String} (h : Rejected tok) (s : State) :
    get_generic_value tok s = Res.exit 1
      { s with
        log := s.log ++ ["Invalid value passed (" ++ fmt_ld (strtol tok 10).1 ++ ")!\n"],
        stderr := s.stderr ++ (usage_text ++ "\n") } := by
  have hb : (decide ((strtol tok 10).1 < 0) || decide ((strtol tok 10).2 = 0)) = true := by
    rcases h with h | h <;> simp [h]
  simp [get_generic_value, Proc.bind, hb, print_usage_and_exit, LOG_ERROR, fprintf_stderr, exit,
    EXIT_FAILURE]

/-- The attribute address of a query fits the 128 bytes of `arg`. -/
theorem nv_query_fits (d p : Int) (attr : String) (hattr : attr.length ≤ 27)
    (hd : 0 ≤ d ∧ d ≤ LONG_MAX) (hp : 0 ≤ p ∧ p ≤ LONG_MAX) :
    snprintf 128 (NV_ATTRIBUTE_FORMAT d attr p) = NV_ATTRIBUTE_FORMAT d attr p := by
  apply snprintf_eq
  have h1 := fmt_ld_length d hd.1 hd.2
  have h2 := fmt_ld_length p hp.1 hp.2
  simp only [NV_ATTRIBUTE_FORMAT, String.length_append]
  have e1 : "[gpu:".length = 5 := by decide
  have e2 : "]/".length = 2 := by decide
  have e3 : "[".length = 1 := by decide
  have e4 : "]".length = 1 := by decide
  omega

/-- The assignment of a Set fits the 128 bytes of `core_arg` and `mem_arg`. -/
theorem nv_assign_fits (d p c : Int) (attr : String) (hattr : attr.length ≤ 27)
    (hd : 0 ≤ d ∧ d ≤ LONG_MAX) (hp : 0 ≤ p ∧ p ≤ LONG_MAX) (hc : 0 ≤ c ∧ c ≤ LONG_MAX) :
    snprintf 128 (NV_ATTRIBUTE_FORMAT d attr p ++ "=" ++ fmt_ld c) =
      NV_ATTRIBUTE_FORMAT d attr p ++ "=" ++ fmt_ld c := by
  apply snprintf_eq
  have h1 := fmt_ld_length d hd.1 hd.2
  have h2 := fmt_ld_length p hp.1 hp.2
  have h3 := fmt_ld_length c hc.1 hc.2
  simp only [NV_ATTRIBUTE_FORMAT, String.length_append]
  have e1 : "[gpu:".length = 5 := by decide
  have e2 : "]/".length = 2 := by decide
  have e3 : "[".length = 1 := by decide
  have e4 : "]".length = 1 := by decide
  have e5 : "=".length = 1 := by decide
  omega

/-- The path of a control file fits the 64 bytes of `path`. -/
theorem amd_path_fits (d : Int) (filename : String) (hf : filename.length ≤ 10)
    (hd : 0 ≤ d ∧ d ≤ LONG_MAX) :
    snprintf 64 (AMD_DRM_PATH d filename) = AMD_DRM_PATH d filename := by
  apply snprintf_eq
  have h1 := fmt_ld_length d hd.1 hd.2
  simp only [AMD_DRM_PATH, String.length_append]
  have e1 : "/sys/class/drm/card".length = 19 := by decide
  have e2 : "/device/".length = 8 := by decide
  omega

theorem nv_core_text (d p : Int) :
    NV_ATTRIBUTE_FORMAT d NV_CORE_OFFSET_ATTRIBUTE p =
      "[gpu:" ++ fmt_ld d ++ "]/GPUGraphicsClockOffset[" ++ fmt_ld p ++ "]" := by
  simp only [NV_ATTRIBUTE_FORMAT, NV_CORE_OFFSET_ATTRIBUTE, String.append_assoc]
  rfl

theorem nv_mem_text (d p : Int) :
    NV_ATTRIBUTE_FORMAT d NV_MEM_OFFSET_ATTRIBUTE p =
      "[gpu:" ++ fmt_ld d ++ "]/GPUMemoryTransferRateOffset[" ++ fmt_ld p ++ "]" := by
  simp only [NV_ATTRIBUTE_FORMAT, NV_MEM_OFFSET_ATTRIBUTE, String.append_assoc]
  rfl

theorem nv_core_query (d p : Int) (hd : 0 ≤ d ∧ d ≤ LONG_MAX) (hp : 0 ≤ p ∧ p ≤ LONG_MAX) :
    snprintf 128 (NV_ATTRIBUTE_FORMAT d NV_CORE_OFFSET_ATTRIBUTE p) =
      "[gpu:" ++ fmt_ld d ++ "]/GPUGraphicsClockOffset[" ++ fmt_ld p ++ "]" := by
  rw [nv_query_fits d p _ (by decide) hd hp, nv_core_text]

theorem nv_mem_query (d p : Int) (hd : 0 ≤ d ∧ d ≤ LONG_MAX) (hp : 0 ≤ p ∧ p ≤ LONG_MAX) :
    snprintf 128 (NV_ATTRIBUTE_FORMAT d NV_MEM_OFFSET_ATTRIBUTE p) =
      "[gpu:" ++ fmt_ld d ++ "]/GPUMemoryTransferRateOffset[" ++ fmt_ld p ++ "]" := by
  rw [nv_query_fits d p _ (by decide) hd hp, nv_mem_text]

theorem nv_core_assign (d p c : Int) (hd : 0 ≤ d ∧ d ≤ LONG_MAX) (hp : 0 ≤ p ∧ p ≤ LONG_MAX)
    (hc : 0 ≤ c ∧ c ≤ LONG_MAX) :
    snprintf 128 (NV_ATTRIBUTE_FORMAT d NV_CORE_OFFSET_ATTRIBUTE p ++ "=" ++ fmt_ld c) =
      "[gpu:" ++ fmt_ld d ++ "]/GPUGraphicsClockOffset[" ++ fmt_ld p ++ "]=" ++ fmt_ld c := by
  rw [nv_assign_fits d p c _ (by decide) hd hp hc, nv_core_text]
  simp only [String.append_assoc]
  rfl

theorem nv_mem_assign (d p c : Int) (hd : 0 ≤ d ∧ d ≤ LONG_MAX) (hp : 0 ≤ p ∧ p ≤ LONG_MAX)
    (hc : 0 ≤ c ∧ c ≤ LONG_MAX) :
    snprintf 128 (NV_ATTRIBUTE_FORMAT d NV_MEM_OFFSET_ATTRIBUTE p ++ "=" ++ fmt_ld c) =
      "[gpu:" ++ fmt_ld d ++ "]/GPUMemoryTransferRateOffset[" ++ fmt_ld p ++ "]=" ++ fmt_ld c := by
  rw [nv_assign_fits d p c _ (by decide) hd hp hc, nv_mem_text]
  simp only [String.append_assoc]
  rfl

theorem amd_core_path (d : Int) (hd : 0 ≤ d ∧ d ≤ LONG_MAX) :
    snprintf 64 (AMD_DRM_PATH d "pp_sclk_od") =
      "/sys/class/drm/card" ++ fmt_ld d ++ "/device/pp_sclk_od" := by
  rw [amd_path_fits d _ (by decide) hd]
  simp only [AMD_DRM_PATH, String.append_assoc]
  rfl

theorem amd_mem_path (d : Int) (hd : 0 ≤ d ∧ d ≤ LONG_MAX) :
    snprintf 64 (AMD_DRM_PATH d "pp_mclk_od") =
      "/sys/class/drm/card" ++ fmt_ld d ++ "/device/pp_mclk_od" := by
  rw [amd_path_fits d _ (by decide) hd]
  simp only [AMD_DRM_PATH, String.append_assoc]
  rfl

theorem amd_paths_differ (d : Int) :
    "/sys/class/drm/card" ++ fmt_ld d ++ "/device/pp_sclk_od" ≠
      "/sys/class/drm/card" ++ fmt_ld d ++ "/device/pp_mclk_od" := by
  intro h
  have := congrArg String.data h
  simp at this

theorem perfIs_range {argv : List String} {i : Nat} {p : Int} (h : PerfIs argv i p) :
    0 ≤ p ∧ p ≤ LONG_MAX := by
  unfold PerfIs at h
  split_ifs at h
  · exact ⟨h.2.1, accepts_le h⟩
  · subst h
    decide

attribute [simp] Proc.bind setInfo getInfo printf fprintf_stderr LOG_ERROR exit
  print_usage_and_exit run_external_process fopen fprintf fclose strerror initState zeroInfo
  EXIT_SUCCESS EXIT_FAILURE

/-! ## Properties of `info` kept along a run -/

section KeepsRules

variable {α β : Type} {J : GameModeGPUInfo → Prop}

theorem keeps_bind {m : Proc α} {f : α → Proc β} (h1 : Keeps J m) (h2 : ∀ a, Keeps J (f a)) :
    Keeps J (m >>= f) := by
  intro s hs
  have h := h1 s hs
  simp only [bind_apply, Proc.bind]
  cases hm : m s with
  | ret a s1 =>
    rw [hm] at h
    exact h2 a s1 h
  | exit c s1 =>
    rw [hm] at h
    exact h

theorem keeps_pure (a : α) : Keeps J (pure a : Proc α) := fun _ hs => hs

theorem keeps_ite {c : Prop} [Decidable c] {a b : Proc α} (ha : Keeps J a) (hb : Keeps J b) :
    Keeps J (if c then a else b) := by
  split_ifs
  · exact ha
  · exact hb

theorem keeps_exit (c : Int) : Keeps J (exit c : Proc α) := fun _ hs => hs

theorem keeps_printf (t : String) : Keeps J (printf t) := fun _ hs => hs

theorem keeps_fprintf_stderr (t : String) : Keeps J (fprintf_stderr t) := fun _ hs => hs

theorem keeps_LOG_ERROR (t : String) : Keeps J (LOG_ERROR t) := fun _ hs => hs

theorem keeps_getInfo_bind {f : GameModeGPUInfo → Proc β} (h : ∀ i, J i → Keeps J (f i)) :
    Keeps J (getInfo >>= f) := fun s hs => h s.info hs s hs

theorem keeps_setInfo {f : GameModeGPUInfo → GameModeGPUInfo} (h : ∀ i, J i → J (f i)) :
    Keeps J (setInfo f) := fun s hs => h s.info hs

theorem keeps_run_external_process (env : Env) (args : List String) (capture : Bool) :
    Keeps J (run_external_process env args capture) := fun _ hs => hs

theorem keeps_fopen (env : Env) (path : String) : Keeps J (fopen env path) := fun _ hs => hs

theorem keeps_fprintf (env : Env) (path t : String) : Keeps J (fprintf env path t) :=
  fun _ hs => hs

theorem keeps_fclose (env : Env) (path : String) : Keeps J (fclose env path) := fun _ hs => hs

theorem keeps_strerror (env : Env) : Keeps J (strerror env) := fun _ hs => hs

theorem keeps_print_usage_and_exit : Keeps J (print_usage_and_exit : Proc α) :=
  fun _ hs => hs

theorem keeps_get_vendor_bind (g : GpuControl) (tok : String) {f : Int → Proc β}
    (h : ∀ a, Keeps J (f a)) : Keeps J (get_vendor g tok >>= f) := by
  apply keeps_bind _ h
  unfold get_vendor
  dsimp only
  apply keeps_ite
  · exact keeps_bind (keeps_LOG_ERROR _)
      (fun _ => keeps_bind keeps_print_usage_and_exit (fun _ => keeps_pure _))
  · exact keeps_bind (keeps_pure _) (fun _ => keeps_pure _)

/-- The value `get_device` returns is not negative. -/
theorem keeps_get_device_bind (tok : String) {f : Int → Proc β}
    (h : ∀ a, 0 ≤ a → Keeps J (f a)) : Keeps J (get_device tok >>= f) := by
  intro s hs
  by_cases hr : Rejected tok
  · simpa [get_device_bad hr] using hs
  · have ha : Accepts tok (strtol tok 10).1 := by
      unfold Rejected at hr
      unfold Accepts
      push_neg at hr
      exact ⟨rfl, hr.1, hr.2⟩
    simpa [get_device_ok ha] using h _ ha.2.1 s hs

/-- The value `get_generic_value` returns is not negative. -/
theorem keeps_get_generic_value_bind (tok : String) {f : Int → Proc β}
    (h : ∀ a, 0 ≤ a → Keeps J (f a)) : Keeps J (get_generic_value tok >>= f) := by
  intro s hs
  by_cases hr : Rejected tok
  · simpa [get_generic_value_bad hr] using hs
  · have ha : Accepts tok (strtol tok 10).1 := by
      unfold Rejected at hr
      unfold Accepts
      push_neg at hr
      exact ⟨rfl, hr.1, hr.2⟩
    simpa [get_generic_value_ok ha] using h _ ha.2.1 s hs

end KeepsRules

/-- The Nvidia Get backend assigns `core` and `mem` only. -/
theorem keeps_get_gpu_state_nv (g : GpuControl) (env : Env) {J : GameModeGPUInfo → Prop}
    (hcore : ∀ i x, J i → J { i with core := x }) (hmem : ∀ i x, J i → J { i with mem := x }) :
    Keeps J (get_gpu_state_nv g env) := by
  unfold get_gpu_state_nv
  apply keeps_getInfo_bind
  intro i _
  dsimp only
  repeat' first
    | exact keeps_pure _
    | exact keeps_LOG_ERROR _
    | exact keeps_run_external_process _ _ _
    | exact keeps_setInfo (fun i hi => hcore i _ hi)
    | exact keeps_setInfo (fun i hi => hmem i _ hi)
    | apply keeps_ite
    | apply keeps_bind
    | intro _

/-- The Nvidia Set backend leaves `info` as it is. -/
theorem keeps_set_gpu_state_nv (g : GpuControl) (env : Env) {J : GameModeGPUInfo → Prop} :
    Keeps J (set_gpu_state_nv g env) := by
  unfold set_gpu_state_nv
  apply keeps_getInfo_bind
  intro i _
  dsimp only
  repeat' first
    | exact keeps_pure _
    | exact keeps_LOG_ERROR _
    | exact keeps_run_external_process _ _ _
    | apply keeps_ite
    | apply keeps_bind
    | intro _

theorem keeps_set_gpu_state_amd_file (env : Env) (filename : String) (device value : Int)
    {J : GameModeGPUInfo → Prop} :
    Keeps J (set_gpu_state_amd_file env filename device value) := by
  unfold set_gpu_state_amd_file
  dsimp only
  repeat' first
    | exact keeps_pure _
    | exact keeps_LOG_ERROR _
    | exact keeps_fopen _ _
    | exact keeps_fprintf _ _ _
    | exact keeps_fclose _ _
    | exact keeps_strerror _
    | apply keeps_ite
    | apply keeps_bind
    | intro _

/-- The AMD Set backend leaves `info` as it is. -/
theorem keeps_set_gpu_state_amd (g : GpuControl) (env : Env) {J : GameModeGPUInfo → Prop} :
    Keeps J (set_gpu_state_amd g env) := by
  unfold set_gpu_state_amd
  apply keeps_getInfo_bind
  intro i _
  dsimp only
  repeat' first
    | exact keeps_pure _
    | exact keeps_fprintf_stderr _
    | exact keeps_print_usage_and_exit
    | exact keeps_set_gpu_state_amd_file _ _ _ _
    | apply keeps_ite
    | apply keeps_bind
    | intro _

theorem keeps_get_gpu_state_amd {J : GameModeGPUInfo → Prop} : Keeps J get_gpu_state_amd := by
  unfold get_gpu_state_amd
  exact keeps_bind (keeps_fprintf_stderr _) (fun _ => keeps_pure _)

theorem keeps_getDispatch (g : GpuControl) (env : Env) (v : Int) :
    Keeps GetInv (getDispatch g env v) := by
  have hnv : Keeps GetInv (get_gpu_state_nv g env) :=
    keeps_get_gpu_state_nv g env (fun i x hi => hi) (fun i x hi => hi)
  have hamd : Keeps GetInv get_gpu_state_amd := keeps_get_gpu_state_amd
  have tail : ∀ y : Unit, Keeps GetInv (do
      let info ← getInfo
      printf (fmt_ld info.core ++ " " ++ fmt_ld info.mem ++ "\n")
      pure EXIT_SUCCESS : Proc Int) := fun _ =>
    keeps_getInfo_bind (fun _ _ => keeps_bind (keeps_printf _) (fun _ => keeps_pure _))
  unfold getDispatch
  dsimp only
  refine keeps_ite ?_ (keeps_ite ?_ ?_)
  · refine keeps_bind hnv (fun r => keeps_ite ?_ ?_)
    · exact keeps_bind (keeps_exit _) tail
    · exact keeps_bind (keeps_pure _) tail
  · refine keeps_bind hamd (fun r => keeps_ite ?_ ?_)
    · exact keeps_bind (keeps_exit _) tail
    · exact keeps_bind (keeps_pure _) tail
  · exact keeps_bind (keeps_printf _) tail

theorem keeps_setDispatch (g : GpuControl) (env : Env) (v : Int) :
    Keeps SetInv (setDispatch g env v) := by
  have tail : ∀ y : Unit, Keeps SetInv (
      if v = g.Vendor_NVIDIA then set_gpu_state_nv g env
      else if v = g.Vendor_AMD then set_gpu_state_amd g env
      else do
        printf ("Currently unsupported GPU vendor 0x" ++ fmt_04x (shortAsUInt v) ++
          ", doing nothing!\n")
        pure EXIT_SUCCESS : Proc Int) := fun _ =>
    keeps_ite (keeps_set_gpu_state_nv g env) (keeps_ite (keeps_set_gpu_state_amd g env)
      (keeps_bind (keeps_printf _) (fun _ => keeps_pure _)))
  unfold setDispatch
  refine keeps_getInfo_bind (fun i _ => ?_)
  dsimp only
  refine keeps_bind (keeps_printf _) (fun _ => keeps_ite ?_ ?_)
  · exact keeps_bind (keeps_printf _) tail
  · exact keeps_bind (keeps_pure _) tail

theorem main_keeps_get (g : GpuControl) (env : Env) (argv : List String) (h : IsGet argv) :
    Keeps GetInv (main g env argv) := by
  unfold IsGet at h
  unfold main
  dsimp only
  rw [if_pos h]
  refine keeps_bind (keeps_setInfo (fun i _ => by simp [GetInv])) (fun _ => ?_)
  refine keeps_get_vendor_bind g _ (fun v => ?_)
  refine keeps_bind (keeps_setInfo (fun i hi => hi)) (fun _ => ?_)
  refine keeps_get_device_bind _ (fun d hd => ?_)
  refine keeps_bind (keeps_setInfo (fun i hi => ⟨hd, hi.2⟩)) (fun _ => ?_)
  refine keeps_ite ?_ ?_
  · refine keeps_get_generic_value_bind _ (fun p hp => ?_)
    exact keeps_bind (keeps_setInfo (fun i hi => ⟨hi.1, hp⟩)) (fun _ => keeps_getDispatch g env v)
  · exact keeps_bind (keeps_pure _) (fun _ => keeps_getDispatch g env v)

theorem main_keeps_set (g : GpuControl) (env : Env) (argv : List String) (h : ¬ IsGet argv) :
    Keeps SetInv (main g env argv) := by
  unfold IsGet at h
  unfold main
  dsimp only
  rw [if_neg h]
  refine keeps_ite ?_ keeps_print_usage_and_exit
  refine keeps_bind (keeps_setInfo (fun i _ => by simp [SetInv])) (fun _ => ?_)
  refine keeps_get_vendor_bind g _ (fun v => ?_)
  refine keeps_bind (keeps_setInfo (fun i hi => hi)) (fun _ => ?_)
  refine keeps_get_device_bind _ (fun d hd => ?_)
  refine keeps_bind (keeps_setInfo (fun i hi => ⟨hd, hi.2⟩)) (fun _ => ?_)
  refine keeps_get_generic_value_bind _ (fun c hc => ?_)
  refine keeps_bind (keeps_setInfo (fun i hi => ⟨hi.1, hi.2.1, hc, hi.2.2.2⟩)) (fun _ => ?_)
  refine keeps_get_generic_value_bind _ (fun m hm => ?_)
  refine keeps_bind (keeps_setInfo (fun i hi => ⟨hi.1, hi.2.1, hi.2.2.1, hm⟩)) (fun _ => ?_)
  refine keeps_ite ?_ ?_
  · refine keeps_get_generic_value_bind _ (fun p hp => ?_)
    exact keeps_bind (keeps_setInfo (fun i hi => ⟨hi.1, hp, hi.2.2⟩))
      (fun _ => keeps_setDispatch g env v)
  · exact keeps_bind (keeps_pure _) (fun _ => keeps_setDispatch g env v)

/-! ## The claims -/

theorem set_not_get {a : String} (h : strncmp3 a "set" = true) : strncmp3 a "get" = false := by
  unfold strncmp3 at *
  have h1 : List.take 3 a.data = "set".data := by simpa using h
  rw [h1]
  decide

/-- A Get request with accepted tokens reaches the dispatch with `info` filled in. -/
theorem main_get_eq {g : GpuControl} (env : Env) {argv : List String} {v d p : Int}
    (hget : IsGet argv) (hv : VendorIs g (arg argv 1) v) (hd : Accepts (arg argv 2) d)
    (hp : StoredPerf g v argv 4 p) (s : State) :
    main g env argv s = getDispatch g env v { s with info := ⟨v, d, 0, 0, p⟩ } := by
  have ev := get_vendor_ok hv
  have ed := get_device_ok hd
  obtain ⟨hlen, hmode⟩ := hget
  unfold StoredPerf PerfIs at hp
  unfold main getDispatch
  by_cases hnv : v = g.Vendor_NVIDIA
  · rw [if_pos hnv] at hp
    by_cases h4 : argv.length > 4
    · rw [if_pos h4] at hp
      have ep := get_generic_value_ok hp
      simp [hlen, hmode, h4, ev, ed, ep, hnv]
    · rw [if_neg h4] at hp
      subst hp
      simp [hlen, hmode, h4, ev, ed, hnv]
  · rw [if_neg hnv] at hp
    subst hp
    simp [hlen, hmode, ev, ed, hnv]

/-- A Set request with accepted tokens reaches the dispatch with `info` filled in. -/
theorem main_set_eq {g : GpuControl} (env : Env) {argv : List String} {v d c m p : Int}
    (hset : IsSet argv) (hv : VendorIs g (arg argv 1) v) (hd : Accepts (arg argv 2) d)
    (hc : Accepts (arg argv 4) c) (hm : Accepts (arg argv 5) m)
    (hp : StoredPerf g v argv 6 p) (s : State) :
    main g env argv s = setDispatch g env v { s with info := ⟨v, d, c, m, p⟩ } := by
  have ev := get_vendor_ok hv
  have ed := get_device_ok hd
  have ec := get_generic_value_ok hc
  have em := get_generic_value_ok hm
  obtain ⟨hlen, hlen7, hmode⟩ := hset
  have hg := set_not_get hmode
  unfold StoredPerf PerfIs at hp
  unfold main setDispatch
  by_cases hnv : v = g.Vendor_NVIDIA
  · rw [if_pos hnv] at hp
    by_cases h6 : argv.length > 6
    · rw [if_pos h6] at hp
      have ep := get_generic_value_ok hp
      simp [hlen, hlen7, hmode, hg, h6, ev, ed, ec, em, ep, hnv]
    · rw [if_neg h6] at hp
      subst hp
      simp [hlen, hlen7, hmode, hg, h6, ev, ed, ec, em, hnv]
  · rw [if_neg hnv] at hp
    subst hp
    simp [hlen, hlen7, hmode, hg, ev, ed, ec, em, hnv]

/-- C3. A Get on the Nvidia vendor whose two queries, the core offset first and
the memory offset second, both exit 0 with outputs that `strtol` converts to `a` and
`b`, makes the process exit 0 with the line `a b` as its whole standard output. -/
theorem nv_get_prints_core_mem (g : GpuControl) (env : Env) (fs : String → Option String)
    (argv : List String) (d p a b : Int) (out1 out2 : String)
    (hget : IsGet argv)
    (hv : VendorIs g (arg argv 1) g.Vendor_NVIDIA)
    (hd : Accepts (arg argv 2) d)
    (hp : PerfIs argv 4 p)
    (h1 : env.run_external_process [] (coreQuery d p) = (0, out1))
    (ha : (strtol out1 10).1 = a ∧ (strtol out1 10).2 ≠ 0)
    (h2 : env.run_external_process [Event.exec (coreQuery d p) true] (memQuery d p) = (0, out2))
    (hb : (strtol out2 10).1 = b ∧ (strtol out2 10).2 ≠ 0) :
    (run g env fs argv).status = 0 ∧
    (run g env fs argv).final.stdout = fmt_ld a ++ " " ++ fmt_ld b ++ "\n" ∧
    (run g env fs argv).final.trace =
      [Event.exec (coreQuery d p) true, Event.exec (memQuery d p) true] := by
  have hdr : 0 ≤ d ∧ d ≤ LONG_MAX := ⟨hd.2.1, accepts_le hd⟩
  have hpr := perfIs_range hp
  have q1 := nv_core_query d p hdr hpr
  have q2 := nv_mem_query d p hdr hpr
  have ev := get_vendor_ok hv
  have ed := get_device_ok hd
  obtain ⟨hlen, hmode⟩ := hget
  unfold PerfIs at hp
  unfold coreQuery memQuery at *
  unfold run main
  by_cases h4 : argv.length > 4
  · rw [if_pos h4] at hp
    have ep := get_generic_value_ok hp
    by_cases hdisp : env.getenv "DISPLAY" = none <;>
    simp [hlen, hmode, h4, ev, ed, ep, get_gpu_state_nv, q1, q2, h1, h2, ha, hb, hdisp]
  · rw [if_neg h4] at hp
    subst hp
    by_cases hdisp : env.getenv "DISPLAY" = none <;>
    simp [hlen, hmode, h4, ev, ed, get_gpu_state_nv, q1, q2, h1, h2, ha, hb, hdisp]

/-- C4. A Get on the Nvidia vendor in which a query exits non-zero, or leaves an
output of which `strtol` converts nothing, ends with a non-zero exit status and an empty
standard output.  When the failing query is the core one, it is the only call made;
when it is the memory one, the value read for the core offset is not printed either. -/
theorem nv_get_failure_prints_nothing (g : GpuControl) (env : Env)
    (fs : String → Option String) (argv : List String) (d p : Int)
    (hget : IsGet argv)
    (hv : VendorIs g (arg argv 1) g.Vendor_NVIDIA)
    (hd : Accepts (arg argv 2) d)
    (hp : PerfIs argv 4 p) :
    (((env.run_external_process [] (coreQuery d p)).1 ≠ 0 ∨
        (strtol (env.run_external_process [] (coreQuery d p)).2 10).2 = 0) →
      (run g env fs argv).status = 1 ∧
      (run g env fs argv).final.stdout = "" ∧
      (run g env fs argv).final.trace = [Event.exec (coreQuery d p) true]) ∧
    ((env.run_external_process [] (coreQuery d p)).1 = 0 →
      (strtol (env.run_external_process [] (coreQuery d p)).2 10).2 ≠ 0 →
      ((env.run_external_process [Event.exec (coreQuery d p) true] (memQuery d p)).1 ≠ 0 ∨
        (strtol (env.run_external_process [Event.exec (coreQuery d p) true]
          (memQuery d p)).2 10).2 = 0) →
      (run g env fs argv).status = 1 ∧
      (run g env fs argv).final.stdout = "" ∧
      (run g env fs argv).final.trace =
        [Event.exec (coreQuery d p) true, Event.exec (memQuery d p) true]) := by
  have hdr : 0 ≤ d ∧ d ≤ LONG_MAX := ⟨hd.2.1, accepts_le hd⟩
  have hpr := perfIs_range hp
  have q1 := nv_core_query d p hdr hpr
  have q2 := nv_mem_query d p hdr hpr
  have ev := get_vendor_ok hv
  have ed := get_device_ok hd
  obtain ⟨hlen, hmode⟩ := hget
  have main_eq : ∀ s, main g env argv s = (do
      let r ← get_gpu_state_nv g env
      if r ≠ 0 then exit EXIT_FAILURE
      let info ← getInfo
      printf (fmt_ld info.core ++ " " ++ fmt_ld info.mem ++ "\n")
      pure EXIT_SUCCESS : Proc Int)
      { s with info := ⟨g.Vendor_NVIDIA, d, 0, 0, p⟩ } := by
    intro s
    unfold PerfIs at hp
    unfold main
    by_cases h4 : argv.length > 4
    · rw [if_pos h4] at hp
      have ep := get_generic_value_ok hp
      simp [hlen, hmode, h4, ev, ed, ep]
    · rw [if_neg h4] at hp
      subst hp
      simp [hlen, hmode, h4, ev, ed]
  unfold coreQuery memQuery
  unfold run
  rw [main_eq]
  refine ⟨?_, ?_⟩
  · intro hf
    by_cases hs : (env.run_external_process []
        ["/usr/bin/nvidia-settings", "-q",
          "[gpu:" ++ fmt_ld d ++ "]/GPUGraphicsClockOffset[" ++ fmt_ld p ++ "]", "-t"]).1 = 0
    · have hn := hf.resolve_left (not_not.mpr hs)
      by_cases hdisp : env.getenv "DISPLAY" = none <;>
      simp [get_gpu_state_nv, q1, q2, hs, hn, hdisp]
    · by_cases hdisp : env.getenv "DISPLAY" = none <;>
      simp [get_gpu_state_nv, q1, q2, hs, hdisp]
  · intro hs hn hf
    by_cases hs2 : (env.run_external_process
        [Event.exec ["/usr/bin/nvidia-settings", "-q",
          "[gpu:" ++ fmt_ld d ++ "]/GPUGraphicsClockOffset[" ++ fmt_ld p ++ "]", "-t"] true]
        ["/usr/bin/nvidia-settings", "-q",
          "[gpu:" ++ fmt_ld d ++ "]/GPUMemoryTransferRateOffset[" ++ fmt_ld p ++ "]", "-t"]).1 = 0
    · have hn2 := hf.resolve_left (not_not.mpr hs2)
      by_cases hdisp : env.getenv "DISPLAY" = none <;>
      simp [get_gpu_state_nv, q1, q2, hs, hn, hs2, hn2, hdisp]
    · by_cases hdisp : env.getenv "DISPLAY" = none <;>
      simp [get_gpu_state_nv, q1, q2, hs, hn, hs2, hdisp]

/-- C5. A Set on the Nvidia vendor calls the tool in apply mode with the assignment
of the core offset first.  If that call exits non-zero no other call is made; otherwise
the assignment of the memory offset follows.  The exit status of the process is zero
exactly when both calls exit with zero. -/
theorem nv_set_applies_core_then_mem (g : GpuControl) (env : Env)
    (fs : String → Option String) (argv : List String) (d c m p : Int)
    (hset : IsSet argv)
    (hv : VendorIs g (arg argv 1) g.Vendor_NVIDIA)
    (hd : Accepts (arg argv 2) d)
    (hc : Accepts (arg argv 4) c)
    (hm : Accepts (arg argv 5) m)
    (hp : PerfIs argv 6 p) :
    ((env.run_external_process [] (coreAssign d p c)).1 ≠ 0 →
      (run g env fs argv).final.trace = [Event.exec (coreAssign d p c) false]) ∧
    ((env.run_external_process [] (coreAssign d p c)).1 = 0 →
      (run g env fs argv).final.trace =
        [Event.exec (coreAssign d p c) false, Event.exec (memAssign d p m) false]) ∧
    ((run g env fs argv).status = 0 ↔
      (env.run_external_process [] (coreAssign d p c)).1 = 0 ∧
      (env.run_external_process [Event.exec (coreAssign d p c) false]
        (memAssign d p m)).1 = 0) := by
  have hdr : 0 ≤ d ∧ d ≤ LONG_MAX := ⟨hd.2.1, accepts_le hd⟩
  have hcr : 0 ≤ c ∧ c ≤ LONG_MAX := ⟨hc.2.1, accepts_le hc⟩
  have hmr : 0 ≤ m ∧ m ≤ LONG_MAX := ⟨hm.2.1, accepts_le hm⟩
  have hpr := perfIs_range hp
  have q1 := nv_core_assign d p c hdr hpr hcr
  have q2 := nv_mem_assign d p m hdr hpr hmr
  have hsp : StoredPerf g g.Vendor_NVIDIA argv 6 p := by
    unfold StoredPerf
    rw [if_pos rfl]
    exact hp
  unfold run
  rw [main_set_eq env hset hv hd hc hm hsp]
  unfold coreAssign memAssign
  by_cases hs : (env.run_external_process [] ["/usr/bin/nvidia-settings", "-a",
      "[gpu:" ++ fmt_ld d ++ "]/GPUGraphicsClockOffset[" ++ fmt_ld p ++ "]=" ++ fmt_ld c]).1 = 0
  · by_cases hs2 : (env.run_external_process
        [Event.exec ["/usr/bin/nvidia-settings", "-a",
          "[gpu:" ++ fmt_ld d ++ "]/GPUGraphicsClockOffset[" ++ fmt_ld p ++ "]=" ++ fmt_ld c]
          false]
        ["/usr/bin/nvidia-settings", "-a",
          "[gpu:" ++ fmt_ld d ++ "]/GPUMemoryTransferRateOffset[" ++ fmt_ld p ++ "]=" ++
            fmt_ld m]).1 = 0 <;>
    by_cases hdisp : ((env.getenv "DISPLAY").isNone || (env.getenv "XAUTHORITY").isNone) = true <;>
    simp [setDispatch, set_gpu_state_nv, q1, q2, hs, hs2, hdisp]
  · by_cases hdisp : ((env.getenv "DISPLAY").isNone || (env.getenv "XAUTHORITY").isNone) = true <;>
    simp [setDispatch, set_gpu_state_nv, q1, q2, hs, hdisp]

/-- C1. A Set on the AMD vendor with accepted device, core and mem tokens, run
by a user other than the superuser, exits with the failure status after the usage
text, and touches no control file: no call is made and the file system is as before. -/
theorem amd_set_requires_root (g : GpuControl) (env : Env) (fs : String → Option String)
    (argv : List String) (d c m : Int)
    (hset : IsSet argv)
    (hv : VendorIs g (arg argv 1) g.Vendor_AMD)
    (hne : g.Vendor_AMD ≠ g.Vendor_NVIDIA)
    (hd : Accepts (arg argv 2) d)
    (hc : Accepts (arg argv 4) c)
    (hm : Accepts (arg argv 5) m)
    (huid : env.geteuid ≠ 0) :
    (run g env fs argv).status = 1 ∧
    (run g env fs argv).final.trace = [] ∧
    (run g env fs argv).final.fs = fs ∧
    (run g env fs argv).final.stderr =
      "gpuclockctl must be run as root to set AMD values\n" ++ (usage_text ++ "\n") := by
  have hsp : StoredPerf g g.Vendor_AMD argv 6 0 := by
    unfold StoredPerf
    rw [if_neg hne]
  unfold run
  rw [main_set_eq env hset hv hd hc hm hsp]
  simp [setDispatch, set_gpu_state_amd, hne, huid]

/-- C2. A Set on the AMD vendor run by the superuser writes the decimal text of
the core value to the core-control file of the device and then the decimal text of the
mem value to its mem-control file: the calls made are always an initial part of
open, write, close on the core file followed by open, write, close on the mem file.
When the open, write or close of the core file fails the run reports failure and no
call names the mem file, whose content stays as it was.  When the core write goes
through the mem file is opened next, and the exit status is zero exactly when the mem
write goes through too; both files then hold the two texts. -/
theorem amd_set_writes_core_then_mem (g : GpuControl) (env : Env)
    (fs : String → Option String) (argv : List String) (d c m : Int)
    (hset : IsSet argv)
    (hv : VendorIs g (arg argv 1) g.Vendor_AMD)
    (hne : g.Vendor_AMD ≠ g.Vendor_NVIDIA)
    (hd : Accepts (arg argv 2) d)
    (hc : Accepts (arg argv 4) c)
    (hm : Accepts (arg argv 5) m)
    (hroot : env.geteuid = 0) :
    (run g env fs argv).final.trace <+:
      writeEvents (corePath d) (fmt_ld c) ++ writeEvents (memPath d) (fmt_ld m) ∧
    (writeOk env [] (corePath d) (fmt_ld c) = false →
      (run g env fs argv).status = -1 ∧
      (run g env fs argv).final.trace <+: writeEvents (corePath d) (fmt_ld c) ∧
      Event.fopen (memPath d) ∉ (run g env fs argv).final.trace ∧
      (∀ t, Event.fprintf (memPath d) t ∉ (run g env fs argv).final.trace) ∧
      (run g env fs argv).final.fs (memPath d) = fs (memPath d)) ∧
    (writeOk env [] (corePath d) (fmt_ld c) = true →
      writeEvents (corePath d) (fmt_ld c) ++ [Event.fopen (memPath d)] <+:
        (run g env fs argv).final.trace ∧
      (run g env fs argv).final.fs (corePath d) = some (fmt_ld c) ∧
      ((run g env fs argv).status = 0 ↔
        writeOk env (writeEvents (corePath d) (fmt_ld c)) (memPath d) (fmt_ld m) = true) ∧
      (writeOk env (writeEvents (corePath d) (fmt_ld c)) (memPath d) (fmt_ld m) = true →
        (run g env fs argv).final.trace =
          writeEvents (corePath d) (fmt_ld c) ++ writeEvents (memPath d) (fmt_ld m) ∧
        (run g env fs argv).final.fs (memPath d) = some (fmt_ld m))) := by
  have hdr : 0 ≤ d ∧ d ≤ LONG_MAX := ⟨hd.2.1, accepts_le hd⟩
  have p1 := amd_core_path d hdr
  have p2 := amd_mem_path d hdr
  have hp12 := amd_paths_differ d
  have hp21 := Ne.symm hp12
  have hsp : StoredPerf g g.Vendor_AMD argv 6 0 := by
    unfold StoredPerf
    rw [if_neg hne]
  unfold run
  rw [main_set_eq env hset hv hd hc hm hsp]
  unfold writeOk writeEvents corePath memPath
  by_cases ho1 : env.fopen [] ("/sys/class/drm/card" ++ fmt_ld d ++ "/device/pp_sclk_od") = true
  swap
  · simp [setDispatch, set_gpu_state_amd, set_gpu_state_amd_file, hne, hroot, p1, p2, hp12,
      hp21, ho1]
  by_cases hw1 : env.fprintf
      [Event.fopen ("/sys/class/drm/card" ++ fmt_ld d ++ "/device/pp_sclk_od")]
      ("/sys/class/drm/card" ++ fmt_ld d ++ "/device/pp_sclk_od") (fmt_ld c) = true
  swap
  · simp [setDispatch, set_gpu_state_amd, set_gpu_state_amd_file, hne, hroot, p1, p2, hp12,
      hp21, ho1, hw1]
  by_cases hc1 : env.fclose
      [Event.fopen ("/sys/class/drm/card" ++ fmt_ld d ++ "/device/pp_sclk_od"),
        Event.fprintf ("/sys/class/drm/card" ++ fmt_ld d ++ "/device/pp_sclk_od") (fmt_ld c)]
      ("/sys/class/drm/card" ++ fmt_ld d ++ "/device/pp_sclk_od") = true
  swap
  · simp [setDispatch, set_gpu_state_amd, set_gpu_state_amd_file, hne, hroot, p1, p2, hp12,
      hp21, ho1, hw1, hc1]
  by_cases ho2 : env.fopen
      [Event.fopen ("/sys/class/drm/card" ++ fmt_ld d ++ "/device/pp_sclk_od"),
        Event.fprintf ("/sys/class/drm/card" ++ fmt_ld d ++ "/device/pp_sclk_od") (fmt_ld c),
        Event.fclose ("/sys/class/drm/card" ++ fmt_ld d ++ "/device/pp_sclk_od")]
      ("/sys/class/drm/card" ++ fmt_ld d ++ "/device/pp_mclk_od") = true
  swap
  · simp [setDispatch, set_gpu_state_amd, set_gpu_state_amd_file, hne, hroot, p1, p2, hp12,
      hp21, ho1, hw1, hc1, ho2]
  by_cases hw2 : env.fprintf
      [Event.fopen ("/sys/class/drm/card" ++ fmt_ld d ++ "/device/pp_sclk_od"),
        Event.fprintf ("/sys/class/drm/card" ++ fmt_ld d ++ "/device/pp_sclk_od") (fmt_ld c),
        Event.fclose ("/sys/class/drm/card" ++ fmt_ld d ++ "/device/pp_sclk_od"),
        Event.fopen ("/sys/class/drm/card" ++ fmt_ld d ++ "/device/pp_mclk_od")]
      ("/sys/class/drm/card" ++ fmt_ld d ++ "/device/pp_mclk_od") (fmt_ld m) = true
  swap
  · simp [setDispatch, set_gpu_state_amd, set_gpu_state_amd_file, hne, hroot, p1, p2, hp12,
      hp21, ho1, hw1, hc1, ho2, hw2]
  by_cases hc2 : env.fclose
      [Event.fopen ("/sys/class/drm/card" ++ fmt_ld d ++ "/device/pp_sclk_od"),
        Event.fprintf ("/sys/class/drm/card" ++ fmt_ld d ++ "/device/pp_sclk_od") (fmt_ld c),
        Event.fclose ("/sys/class/drm/card" ++ fmt_ld d ++ "/device/pp_sclk_od"),
        Event.fopen ("/sys/class/drm/card" ++ fmt_ld d ++ "/device/pp_mclk_od"),
        Event.fprintf ("/sys/class/drm/card" ++ fmt_ld d ++ "/device/pp_mclk_od") (fmt_ld m)]
      ("/sys/class/drm/card" ++ fmt_ld d ++ "/device/pp_mclk_od") = true
  swap
  · simp [setDispatch, set_gpu_state_amd, set_gpu_state_amd_file, hne, hroot, p1, p2, hp12,
      hp21, ho1, hw1, hc1, ho2, hw2, hc2]
  simp [setDispatch, set_gpu_state_amd, set_gpu_state_amd_file, hne, hroot, p1, p2, hp12,
    hp21, ho1, hw1, hc1, ho2, hw2, hc2]

theorem not_rejected {tok : String} (h : ¬ Rejected tok) : Accepts tok (strtol tok 10).1 := by
  unfold Rejected at h
  push_neg at h
  exact ⟨rfl, h.1, h.2⟩

/-- C6. Whatever the argument vector, a vendor token that `strtol` converts to a
value `GPUVendorValid` does not recognise, or of which it converts nothing, makes the
process exit with the failure status; the usage text is all that is written to standard
error, nothing is written to standard output, no backend call is made and the file
system is as before. -/
theorem invalid_vendor_usage (g : GpuControl) (env : Env) (fs : String → Option String)
    (argv : List String)
    (h : g.GPUVendorValid (strtol (arg argv 1) 0).1 = false ∨ (strtol (arg argv 1) 0).2 = 0) :
    (run g env fs argv).status = 1 ∧
    (run g env fs argv).final.stderr = usage_text ++ "\n" ∧
    (run g env fs argv).final.stdout = "" ∧
    (run g env fs argv).final.trace = [] ∧
    (run g env fs argv).final.fs = fs := by
  have hv : (!g.GPUVendorValid (strtol (arg argv 1) 0).1 ||
      decide ((strtol (arg argv 1) 0).2 = 0)) = true := by
    rcases h with h | h <;> simp [h]
  unfold run main
  split_ifs <;> simp [get_vendor, hv]

/-- C7, as amended. On a get or set command line whose vendor token is accepted with
value `v`, if a token that `main` reads is rejected (negative, or with nothing for
`strtol` to convert), the process exits with the failure status before any backend call:
nothing is written to standard output, no call is made and the file system is as before.
The tokens read are the device, on a Set the core and the mem, and, for the Nvidia
vendor only, the performance level when there is one. -/
theorem rejected_token_no_backend (g : GpuControl) (env : Env) (fs : String → Option String)
    (argv : List String) (v : Int)
    (hv : VendorIs g (arg argv 1) v)
    (hbad : (IsGet argv ∧ (Rejected (arg argv 2) ∨
        (v = g.Vendor_NVIDIA ∧ argv.length > 4 ∧ Rejected (arg argv 4)))) ∨
      (IsSet argv ∧ (Rejected (arg argv 2) ∨ Rejected (arg argv 4) ∨ Rejected (arg argv 5) ∨
        (v = g.Vendor_NVIDIA ∧ argv.length > 6 ∧ Rejected (arg argv 6))))) :
    (run g env fs argv).status = 1 ∧
    (run g env fs argv).final.stdout = "" ∧
    (run g env fs argv).final.stderr = usage_text ++ "\n" ∧
    (run g env fs argv).final.trace = [] ∧
    (run g env fs argv).final.fs = fs := by
  have ev := get_vendor_ok hv
  unfold run main
  rcases hbad with ⟨⟨hlen, hmode⟩, hb⟩ | ⟨⟨hlen, hlen7, hmode⟩, hb⟩
  · by_cases hd : Rejected (arg argv 2)
    · simp [hlen, hmode, ev, get_device_bad hd]
    · have ed := get_device_ok (not_rejected hd)
      obtain ⟨hnv, h4, hp⟩ := hb.resolve_left hd
      simp [hlen, hmode, ev, ed, ← hnv, h4, get_generic_value_bad hp]
  · have hg := set_not_get hmode
    by_cases hd : Rejected (arg argv 2)
    · simp [hlen, hlen7, hmode, hg, ev, get_device_bad hd]
    have ed := get_device_ok (not_rejected hd)
    replace hb := hb.resolve_left hd
    by_cases hc : Rejected (arg argv 4)
    · simp [hlen, hlen7, hmode, hg, ev, ed, get_generic_value_bad hc]
    have ec := get_generic_value_ok (not_rejected hc)
    replace hb := hb.resolve_left hc
    by_cases hm : Rejected (arg argv 5)
    · simp [hlen, hlen7, hmode, hg, ev, ed, ec, get_generic_value_bad hm]
    have em := get_generic_value_ok (not_rejected hm)
    obtain ⟨hnv, h6, hp⟩ := hb.resolve_left hm
    simp [hlen, hlen7, hmode, hg, ev, ed, ec, em, ← hnv, h6, get_generic_value_bad hp]

/-- C8, as amended. A Get on the AMD vendor with an accepted device token writes
the notice that fetching the state is unimplemented to standard error, makes no backend
call, prints nothing on standard output and exits with the failure status 1: the stub
`get_gpu_state_amd` returns a non-zero value, which `main` answers with
`exit(EXIT_FAILURE)`. -/
theorem amd_get_unimplemented_fails (g : GpuControl) (env : Env)
    (fs : String → Option String) (argv : List String) (d : Int)
    (hget : IsGet argv)
    (hv : VendorIs g (arg argv 1) g.Vendor_AMD)
    (hne : g.Vendor_AMD ≠ g.Vendor_NVIDIA)
    (hd : Accepts (arg argv 2) d) :
    (run g env fs argv).status = 1 ∧
    (run g env fs argv).final.stderr =
      "Fetching GPU state on AMD is currently unimplemented!\n" ∧
    (run g env fs argv).final.stdout = "" ∧
    (run g env fs argv).final.trace = [] ∧
    (run g env fs argv).final.fs = fs := by
  have hsp : StoredPerf g g.Vendor_AMD argv 4 0 := by
    unfold StoredPerf
    rw [if_neg hne]
  unfold run
  rw [main_get_eq env hget hv hd hsp]
  simp [getDispatch, get_gpu_state_amd, hne]

/-- C9, as amended. On a Get request, a vendor token that converts to a number which
`GPUVendorValid` does not recognise ends the process with the failure status and the
usage text, with nothing on standard output and no backend call.  The notice that the
vendor is unsupported belongs to a vendor that `GPUVendorValid` recognises but that is
neither Nvidia nor AMD: with an accepted device token the process then prints the
notice and the line `0 0`, makes no backend call and exits with status 0. -/
theorem get_vendor_without_backend (g : GpuControl) (env : Env)
    (fs : String → Option String) (argv : List String) (hget : IsGet argv) :
    ((strtol (arg argv 1) 0).2 ≠ 0 → g.GPUVendorValid (strtol (arg argv 1) 0).1 = false →
      (run g env fs argv).status = 1 ∧
      (run g env fs argv).final.stderr = usage_text ++ "\n" ∧
      (run g env fs argv).final.stdout = "" ∧
      (run g env fs argv).final.trace = [] ∧
      (run g env fs argv).final.fs = fs) ∧
    (∀ v d : Int, VendorIs g (arg argv 1) v → v ≠ g.Vendor_NVIDIA → v ≠ g.Vendor_AMD →
      Accepts (arg argv 2) d →
      (run g env fs argv).status = 0 ∧
      (run g env fs argv).final.stdout =
        "Currently unsupported GPU vendor 0x" ++ fmt_04x (shortAsUInt v) ++
          ", doing nothing!\n" ++ "0 0\n" ∧
      (run g env fs argv).final.trace = [] ∧
      (run g env fs argv).final.fs = fs) := by
  refine ⟨?_, ?_⟩
  · intro _ hinv
    have hv : (!g.GPUVendorValid (strtol (arg argv 1) 0).1 ||
        decide ((strtol (arg argv 1) 0).2 = 0)) = true := by simp [hinv]
    obtain ⟨hlen, hmode⟩ := hget
    unfold run main
    simp [hlen, hmode, get_vendor, hv]
  · intro v d hv hnv hamd hd
    have hsp : StoredPerf g v argv 4 0 := by
      unfold StoredPerf
      rw [if_neg hnv]
    unfold run
    rw [main_get_eq env hget hv hd hsp]
    have h0 : fmt_ld 0 = "0" := by decide
    simp [getDispatch, hnv, hamd, h0, String.append_assoc]

/-- C10, as amended. In every execution the fields `device` and `nv_perf_level` of
`info` are never negative, and outside a Get request neither are `core` and `mem`:
these fields are filled from command-line tokens, which `main` stores only once
accepted.  On a Get the fields `core` and `mem` hold what `strtol` converts of the
tool output, for which there is no such guarantee. -/
theorem token_fields_nonneg (g : GpuControl) (env : Env) (fs : String → Option String)
    (argv : List String) :
    0 ≤ (run g env fs argv).final.info.device ∧
    0 ≤ (run g env fs argv).final.info.nv_perf_level ∧
    (¬ IsGet argv →
      0 ≤ (run g env fs argv).final.info.core ∧ 0 ≤ (run g env fs argv).final.info.mem) := by
  unfold run
  by_cases hget : IsGet argv
  · have h := main_keeps_get g env argv hget (initState fs) (by simp [GetInv])
    cases hm : main g env argv (initState fs) with
    | ret a s1 =>
      rw [hm] at h
      exact ⟨h.1, h.2, fun hn => absurd hget hn⟩
    | exit c s1 =>
      rw [hm] at h
      exact ⟨h.1, h.2, fun hn => absurd hget hn⟩
  · have h := main_keeps_set g env argv hget (initState fs) (by simp [SetInv])
    cases hm : main g env argv (initState fs) with
    | ret a s1 =>
      rw [hm] at h
      exact ⟨h.1, h.2.1, fun _ => h.2.2⟩
    | exit c s1 =>
      rw [hm] at h
      exact ⟨h.1, h.2.1, fun _ => h.2.2⟩

/-- A Set for a vendor that `GPUVendorValid` recognises but that is neither Nvidia nor
AMD prints the confirmation line and the notice that the vendor is unsupported, makes no
backend call and exits with status 0. -/
theorem set_vendor_without_backend (g : GpuControl) (env : Env) (fs : String → Option String)
    (argv : List String) (v d c m : Int)
    (hset : IsSet argv)
    (hv : VendorIs g (arg argv 1) v)
    (hnv : v ≠ g.Vendor_NVIDIA)
    (hamd : v ≠ g.Vendor_AMD)
    (hd : Accepts (arg argv 2) d)
    (hc : Accepts (arg argv 4) c)
    (hm : Accepts (arg argv 5) m) :
    (run g env fs argv).status = 0 ∧
    (run g env fs argv).final.stdout =
      "gpuclockctl setting core:" ++ fmt_ld c ++ " mem:" ++ fmt_ld m ++ " on device:" ++
        fmt_ld d ++ " with vendor 0x" ++ fmt_04x (toUShort v) ++ "\n" ++
        ("Currently unsupported GPU vendor 0x" ++ fmt_04x (shortAsUInt v) ++
          ", doing nothing!\n") ∧
    (run g env fs argv).final.trace = [] ∧
    (run g env fs argv).final.fs = fs := by
  have hsp : StoredPerf g v argv 6 0 := by
    unfold StoredPerf
    rw [if_neg hnv]
  unfold run
  rw [main_set_eq env hset hv hd hc hm hsp]
  simp [setDispatch, hnv, hamd]

/-- In `set_gpu_state_amd_file` a failed write returns at once: when the core file
opens and the `fprintf` on it fails, the open and the write are the only calls of the
run, so the stream is never closed, and the status is -1. -/
theorem amd_write_failure_skips_close (g : GpuControl) (env : Env)
    (fs : String → Option String) (argv : List String) (d c m : Int)
    (hset : IsSet argv)
    (hv : VendorIs g (arg argv 1) g.Vendor_AMD)
    (hne : g.Vendor_AMD ≠ g.Vendor_NVIDIA)
    (hd : Accepts (arg argv 2) d)
    (hc : Accepts (arg argv 4) c)
    (hm : Accepts (arg argv 5) m)
    (hroot : env.geteuid = 0)
    (hopen : env.fopen [] (corePath d) = true)
    (hwrite : env.fprintf [Event.fopen (corePath d)] (corePath d) (fmt_ld c) = false) :
    (run g env fs argv).status = -1 ∧
    (run g env fs argv).final.trace =
      [Event.fopen (corePath d), Event.fprintf (corePath d) (fmt_ld c)] := by
  have hdr : 0 ≤ d ∧ d ≤ LONG_MAX := ⟨hd.2.1, accepts_le hd⟩
  have p1 := amd_core_path d hdr
  have hsp : StoredPerf g g.Vendor_AMD argv 6 0 := by
    unfold StoredPerf
    rw [if_neg hne]
  unfold run
  rw [main_set_eq env hset hv hd hc hm hsp]
  unfold corePath at *
  simp [setDispatch, set_gpu_state_amd, set_gpu_state_amd_file, hne, hroot, p1, hopen, hwrite]

/-! ## Concrete runs -/

/-- C3 at `gpuclockctl 0x10de 0 get` with a tool that answers `42` to both queries:
the standard output is the line `42 42`. -/
theorem nv_get_prints_core_mem_witness :
    (run pciIds (simpleEnv 1000 fun _ => (0, "42")) emptyFs
        ["gpuclockctl", "0x10de", "0", "get"]).status = 0 ∧
    (run pciIds (simpleEnv 1000 fun _ => (0, "42")) emptyFs
        ["gpuclockctl", "0x10de", "0", "get"]).final.stdout = "42 42\n" ∧
    (run pciIds (simpleEnv 1000 fun _ => (0, "42")) emptyFs
        ["gpuclockctl", "0x10de", "0", "get"]).final.trace =
      [Event.exec ["/usr/bin/nvidia-settings", "-q", "[gpu:0]/GPUGraphicsClockOffset[0]", "-t"]
          true,
        Event.exec ["/usr/bin/nvidia-settings", "-q", "[gpu:0]/GPUMemoryTransferRateOffset[0]",
          "-t"] true] :=
  nv_get_prints_core_mem pciIds (simpleEnv 1000 fun _ => (0, "42")) emptyFs
    ["gpuclockctl", "0x10de", "0", "get"] 0 0 42 42 "42" "42"
    (by decide) (by decide) (by decide) (by decide) rfl (by decide) rfl (by decide)

/-- C1 at `gpuclockctl 0x1002 0 set 5 3` run by user 1000: failure status, no
call, the file system as before. -/
theorem amd_set_requires_root_witness :
    (run pciIds (simpleEnv 1000 fun _ => (0, "")) emptyFs
        ["gpuclockctl", "0x1002", "0", "set", "5", "3"]).status = 1 ∧
    (run pciIds (simpleEnv 1000 fun _ => (0, "")) emptyFs
        ["gpuclockctl", "0x1002", "0", "set", "5", "3"]).final.trace = [] ∧
    (run pciIds (simpleEnv 1000 fun _ => (0, "")) emptyFs
        ["gpuclockctl", "0x1002", "0", "set", "5", "3"]).final.fs = emptyFs ∧
    (run pciIds (simpleEnv 1000 fun _ => (0, "")) emptyFs
        ["gpuclockctl", "0x1002", "0", "set", "5", "3"]).final.stderr =
      "gpuclockctl must be run as root to set AMD values\n" ++ (usage_text ++ "\n") :=
  amd_set_requires_root pciIds (simpleEnv 1000 fun _ => (0, "")) emptyFs
    ["gpuclockctl", "0x1002", "0", "set", "5", "3"] 0 5 3
    (by decide) (by decide) (by decide) (by decide) (by decide) (by decide) (by decide)

/-- C2 at `gpuclockctl 0x1002 0 set 5 3` run by the superuser.  When every file
operation succeeds, `5` is written to `pp_sclk_od` of card 0 and then `3` to its
`pp_mclk_od`, and the status is 0.  When no file can be opened, the open of the core
file is the only call and the status is -1. -/
theorem amd_set_writes_core_then_mem_witness :
    ((run pciIds (simpleEnv 0 fun _ => (0, "")) emptyFs
        ["gpuclockctl", "0x1002", "0", "set", "5", "3"]).final.trace =
      [Event.fopen "/sys/class/drm/card0/device/pp_sclk_od",
        Event.fprintf "/sys/class/drm/card0/device/pp_sclk_od" "5",
        Event.fclose "/sys/class/drm/card0/device/pp_sclk_od",
        Event.fopen "/sys/class/drm/card0/device/pp_mclk_od",
        Event.fprintf "/sys/class/drm/card0/device/pp_mclk_od" "3",
        Event.fclose "/sys/class/drm/card0/device/pp_mclk_od"] ∧
      (run pciIds (simpleEnv 0 fun _ => (0, "")) emptyFs
        ["gpuclockctl", "0x1002", "0", "set", "5", "3"]).status = 0) ∧
    ((run pciIds noOpenEnv emptyFs
        ["gpuclockctl", "0x1002", "0", "set", "5", "3"]).status = -1 ∧
      (run pciIds noOpenEnv emptyFs
        ["gpuclockctl", "0x1002", "0", "set", "5", "3"]).final.trace <+:
        [Event.fopen "/sys/class/drm/card0/device/pp_sclk_od",
          Event.fprintf "/sys/class/drm/card0/device/pp_sclk_od" "5",
          Event.fclose "/sys/class/drm/card0/device/pp_sclk_od"]) :=
  have h1 := amd_set_writes_core_then_mem pciIds (simpleEnv 0 fun _ => (0, "")) emptyFs
    ["gpuclockctl", "0x1002", "0", "set", "5", "3"] 0 5 3
    (by decide) (by decide) (by decide) (by decide) (by decide) (by decide) (by decide)
  have h2 := amd_set_writes_core_then_mem pciIds noOpenEnv emptyFs
    ["gpuclockctl", "0x1002", "0", "set", "5", "3"] 0 5 3
    (by decide) (by decide) (by decide) (by decide) (by decide) (by decide) (by decide)
  ⟨⟨((h1.2.2 (by decide)).2.2.2 (by decide)).1, (h1.2.2 (by decide)).2.2.1.mpr (by decide)⟩,
    ⟨(h2.2.1 (by decide)).1, (h2.2.1 (by decide)).2.1⟩⟩

/-- C4 at `gpuclockctl 0x10de 0 get` with a tool that exits 1: failure status,
nothing on standard output, the core query as the only call. -/
theorem nv_get_failure_prints_nothing_witness :
    (run pciIds (simpleEnv 1000 fun _ => (1, "")) emptyFs
        ["gpuclockctl", "0x10de", "0", "get"]).status = 1 ∧
    (run pciIds (simpleEnv 1000 fun _ => (1, "")) emptyFs
        ["gpuclockctl", "0x10de", "0", "get"]).final.stdout = "" ∧
    (run pciIds (simpleEnv 1000 fun _ => (1, "")) emptyFs
        ["gpuclockctl", "0x10de", "0", "get"]).final.trace =
      [Event.exec ["/usr/bin/nvidia-settings", "-q", "[gpu:0]/GPUGraphicsClockOffset[0]", "-t"]
        true] :=
  (nv_get_failure_prints_nothing pciIds (simpleEnv 1000 fun _ => (1, "")) emptyFs
    ["gpuclockctl", "0x10de", "0", "get"] 0 0
    (by decide) (by decide) (by decide) (by decide)).1 (Or.inl (by decide))

/-- C5 at `gpuclockctl 0x10de 0 set 5 3 2` with a tool that exits 0: the two
assignments at performance level 2, core first, and status 0. -/
theorem nv_set_applies_core_then_mem_witness :
    (run pciIds (simpleEnv 1000 fun _ => (0, "")) emptyFs
        ["gpuclockctl", "0x10de", "0", "set", "5", "3", "2"]).final.trace =
      [Event.exec ["/usr/bin/nvidia-settings", "-a", "[gpu:0]/GPUGraphicsClockOffset[2]=5"]
          false,
        Event.exec ["/usr/bin/nvidia-settings", "-a",
          "[gpu:0]/GPUMemoryTransferRateOffset[2]=3"] false] ∧
    (run pciIds (simpleEnv 1000 fun _ => (0, "")) emptyFs
        ["gpuclockctl", "0x10de", "0", "set", "5", "3", "2"]).status = 0 :=
  have h := nv_set_applies_core_then_mem pciIds (simpleEnv 1000 fun _ => (0, "")) emptyFs
    ["gpuclockctl", "0x10de", "0", "set", "5", "3", "2"] 0 5 3 2
    (by decide) (by decide) (by decide) (by decide) (by decide) (by decide)
  ⟨h.2.1 (by decide), h.2.2.mpr ⟨by decide, by decide⟩⟩

/-- C6 at `gpuclockctl 0x9999 0 set 5 3`: usage text and failure status. -/
theorem invalid_vendor_usage_witness :
    (run pciIds (simpleEnv 0 fun _ => (0, "")) emptyFs
        ["gpuclockctl", "0x9999", "0", "set", "5", "3"]).status = 1 ∧
    (run pciIds (simpleEnv 0 fun _ => (0, "")) emptyFs
        ["gpuclockctl", "0x9999", "0", "set", "5", "3"]).final.stderr = usage_text ++ "\n" ∧
    (run pciIds (simpleEnv 0 fun _ => (0, "")) emptyFs
        ["gpuclockctl", "0x9999", "0", "set", "5", "3"]).final.stdout = "" ∧
    (run pciIds (simpleEnv 0 fun _ => (0, "")) emptyFs
        ["gpuclockctl", "0x9999", "0", "set", "5", "3"]).final.trace = [] ∧
    (run pciIds (simpleEnv 0 fun _ => (0, "")) emptyFs
        ["gpuclockctl", "0x9999", "0", "set", "5", "3"]).final.fs = emptyFs :=
  invalid_vendor_usage pciIds (simpleEnv 0 fun _ => (0, "")) emptyFs
    ["gpuclockctl", "0x9999", "0", "set", "5", "3"] (Or.inl (by decide))

/-- C7 as stated fails at `gpuclockctl 0x1002 0 set 5 3 -1` run by the superuser: the
vendor token is recognised and the performance-level token denotes a negative number,
yet the process writes both control files and exits with status 0. -/
theorem amd_set_ignores_perf_token :
    IsSet ["gpuclockctl", "0x1002", "0", "set", "5", "3", "-1"] ∧
    VendorIs pciIds "0x1002" pciIds.Vendor_AMD ∧
    strtol "-1" 10 = (-1, 2) ∧
    (run pciIds (simpleEnv 0 fun _ => (0, "")) emptyFs
        ["gpuclockctl", "0x1002", "0", "set", "5", "3", "-1"]).status = 0 ∧
    (run pciIds (simpleEnv 0 fun _ => (0, "")) emptyFs
        ["gpuclockctl", "0x1002", "0", "set", "5", "3", "-1"]).final.trace =
      [Event.fopen "/sys/class/drm/card0/device/pp_sclk_od",
        Event.fprintf "/sys/class/drm/card0/device/pp_sclk_od" "5",
        Event.fclose "/sys/class/drm/card0/device/pp_sclk_od",
        Event.fopen "/sys/class/drm/card0/device/pp_mclk_od",
        Event.fprintf "/sys/class/drm/card0/device/pp_mclk_od" "3",
        Event.fclose "/sys/class/drm/card0/device/pp_mclk_od"] :=
  ⟨by decide, by decide, by decide, by decide, by decide⟩

/-- C7 as amended, at `gpuclockctl 0x10de 0 set 5 -3`: the mem token is negative, the
process exits with the failure status and makes no call. -/
theorem rejected_token_no_backend_witness :
    (run pciIds (simpleEnv 0 fun _ => (0, "")) emptyFs
        ["gpuclockctl", "0x10de", "0", "set", "5", "-3"]).status = 1 ∧
    (run pciIds (simpleEnv 0 fun _ => (0, "")) emptyFs
        ["gpuclockctl", "0x10de", "0", "set", "5", "-3"]).final.stdout = "" ∧
    (run pciIds (simpleEnv 0 fun _ => (0, "")) emptyFs
        ["gpuclockctl", "0x10de", "0", "set", "5", "-3"]).final.stderr = usage_text ++ "\n" ∧
    (run pciIds (simpleEnv 0 fun _ => (0, "")) emptyFs
        ["gpuclockctl", "0x10de", "0", "set", "5", "-3"]).final.trace = [] ∧
    (run pciIds (simpleEnv 0 fun _ => (0, "")) emptyFs
        ["gpuclockctl", "0x10de", "0", "set", "5", "-3"]).final.fs = emptyFs :=
  rejected_token_no_backend pciIds (simpleEnv 0 fun _ => (0, "")) emptyFs
    ["gpuclockctl", "0x10de", "0", "set", "5", "-3"] 0x10de (by decide)
    (Or.inr ⟨by decide, Or.inr (Or.inr (Or.inl (by decide)))⟩)

/-- C8 as stated fails at `gpuclockctl 0x1002 0 get`: a Get on the AMD vendor with
a valid device token, and the exit status is not 0. -/
theorem amd_get_exit_status_nonzero :
    IsGet ["gpuclockctl", "0x1002", "0", "get"] ∧
    VendorIs pciIds "0x1002" pciIds.Vendor_AMD ∧
    Accepts "0" 0 ∧
    (run pciIds (simpleEnv 0 fun _ => (0, "")) emptyFs
        ["gpuclockctl", "0x1002", "0", "get"]).status ≠ 0 :=
  ⟨by decide, by decide, by decide, by decide⟩

/-- C8 as amended, at `gpuclockctl 0x1002 0 get`. -/
theorem amd_get_unimplemented_fails_witness :
    (run pciIds (simpleEnv 0 fun _ => (0, "")) emptyFs
        ["gpuclockctl", "0x1002", "0", "get"]).status = 1 ∧
    (run pciIds (simpleEnv 0 fun _ => (0, "")) emptyFs
        ["gpuclockctl", "0x1002", "0", "get"]).final.stderr =
      "Fetching GPU state on AMD is currently unimplemented!\n" ∧
    (run pciIds (simpleEnv 0 fun _ => (0, "")) emptyFs
        ["gpuclockctl", "0x1002", "0", "get"]).final.stdout = "" ∧
    (run pciIds (simpleEnv 0 fun _ => (0, "")) emptyFs
        ["gpuclockctl", "0x1002", "0", "get"]).final.trace = [] ∧
    (run pciIds (simpleEnv 0 fun _ => (0, "")) emptyFs
        ["gpuclockctl", "0x1002", "0", "get"]).final.fs = emptyFs :=
  amd_get_unimplemented_fails pciIds (simpleEnv 0 fun _ => (0, "")) emptyFs
    ["gpuclockctl", "0x1002", "0", "get"] 0 (by decide) (by decide) (by decide) (by decide)

/-- C9 as stated fails at `gpuclockctl 0x9999 0 get`: the vendor token converts to
the number 0x9999, which is not recognised, and the process exits with a non-zero status
and an empty standard output. -/
theorem unrecognised_vendor_get_fails :
    IsGet ["gpuclockctl", "0x9999", "0", "get"] ∧
    strtol "0x9999" 0 = (0x9999, 6) ∧
    pciIds.GPUVendorValid 0x9999 = false ∧
    (run pciIds (simpleEnv 0 fun _ => (0, "")) emptyFs
        ["gpuclockctl", "0x9999", "0", "get"]).status ≠ 0 ∧
    (run pciIds (simpleEnv 0 fun _ => (0, "")) emptyFs
        ["gpuclockctl", "0x9999", "0", "get"]).final.stdout = "" :=
  ⟨by decide, by decide, by decide, by decide, by decide⟩

/-- C9 as amended, at `gpuclockctl 0x9999 0 get` (usage and failure) and at
`gpuclockctl 0x8086 0 get` (a recognised vendor with no backend: the notice, the line
`0 0` and status 0). -/
theorem get_vendor_without_backend_witness :
    ((run pciIds (simpleEnv 0 fun _ => (0, "")) emptyFs
        ["gpuclockctl", "0x9999", "0", "get"]).status = 1 ∧
      (run pciIds (simpleEnv 0 fun _ => (0, "")) emptyFs
        ["gpuclockctl", "0x9999", "0", "get"]).final.stderr = usage_text ++ "\n") ∧
    ((run pciIds (simpleEnv 0 fun _ => (0, "")) emptyFs
        ["gpuclockctl", "0x8086", "0", "get"]).status = 0 ∧
      (run pciIds (simpleEnv 0 fun _ => (0, "")) emptyFs
        ["gpuclockctl", "0x8086", "0", "get"]).final.stdout =
        "Currently unsupported GPU vendor 0xffff8086, doing nothing!\n0 0\n" ∧
      (run pciIds (simpleEnv 0 fun _ => (0, "")) emptyFs
        ["gpuclockctl", "0x8086", "0", "get"]).final.trace = []) :=
  have h1 := (get_vendor_without_backend pciIds (simpleEnv 0 fun _ => (0, "")) emptyFs
    ["gpuclockctl", "0x9999", "0", "get"] (by decide)).1 (by decide) (by decide)
  have h2 := (get_vendor_without_backend pciIds (simpleEnv 0 fun _ => (0, "")) emptyFs
    ["gpuclockctl", "0x8086", "0", "get"] (by decide)).2 0x8086 0
    (by decide) (by decide) (by decide) (by decide)
  ⟨⟨h1.1, h1.2.1⟩, ⟨h2.1, h2.2.1, h2.2.2.1⟩⟩

/-- C10 as stated fails at `gpuclockctl 0x10de 0 get` with a tool that answers `-42`
to both queries: the Get succeeds and prints two negative values. -/
theorem nv_get_prints_negative_values :
    (run pciIds (simpleEnv 1000 fun _ => (0, "-42")) emptyFs
        ["gpuclockctl", "0x10de", "0", "get"]).status = 0 ∧
    (run pciIds (simpleEnv 1000 fun _ => (0, "-42")) emptyFs
        ["gpuclockctl", "0x10de", "0", "get"]).final.stdout = "-42 -42\n" ∧
    (run pciIds (simpleEnv 1000 fun _ => (0, "-42")) emptyFs
        ["gpuclockctl", "0x10de", "0", "get"]).final.info.core < 0 ∧
    (run pciIds (simpleEnv 1000 fun _ => (0, "-42")) emptyFs
        ["gpuclockctl", "0x10de", "0", "get"]).final.info.mem < 0 :=
  ⟨by decide, by decide, by decide, by decide⟩

/-- A Set for vendor `0x8086`, recognised and without a backend: status 0, no call. -/
theorem set_vendor_without_backend_witness :
    (run pciIds (simpleEnv 0 fun _ => (0, "")) emptyFs
        ["gpuclockctl", "0x8086", "0", "set", "5", "3"]).status = 0 ∧
    (run pciIds (simpleEnv 0 fun _ => (0, "")) emptyFs
        ["gpuclockctl", "0x8086", "0", "set", "5", "3"]).final.stdout =
      "gpuclockctl setting core:5 mem:3 on device:0 with vendor 0x8086\n" ++
        "Currently unsupported GPU vendor 0xffff8086, doing nothing!\n" ∧
    (run pciIds (simpleEnv 0 fun _ => (0, "")) emptyFs
        ["gpuclockctl", "0x8086", "0", "set", "5", "3"]).final.trace = [] ∧
    (run pciIds (simpleEnv 0 fun _ => (0, "")) emptyFs
        ["gpuclockctl", "0x8086", "0", "set", "5", "3"]).final.fs = emptyFs :=
  set_vendor_without_backend pciIds (simpleEnv 0 fun _ => (0, "")) emptyFs
    ["gpuclockctl", "0x8086", "0", "set", "5", "3"] 0x8086 0 5 3
    (by decide) (by decide) (by decide) (by decide) (by decide) (by decide) (by decide)

/-- A Set on card 0 when writes fail: the core file is opened and written to, and not
closed. -/
theorem amd_write_failure_skips_close_witness :
    (run pciIds noWriteEnv emptyFs ["gpuclockctl", "0x1002", "0", "set", "5", "3"]).status = -1 ∧
    (run pciIds noWriteEnv emptyFs
        ["gpuclockctl", "0x1002", "0", "set", "5", "3"]).final.trace =
      [Event.fopen "/sys/class/drm/card0/device/pp_sclk_od",
        Event.fprintf "/sys/class/drm/card0/device/pp_sclk_od" "5"] :=
  amd_write_failure_skips_close pciIds noWriteEnv emptyFs
    ["gpuclockctl", "0x1002", "0", "set", "5", "3"] 0 5 3
    (by decide) (by decide) (by decide) (by decide) (by decide) (by decide) (by decide)
    (by decide) (by decide)

end Gpuclockctl
